import Mathlib

set_option maxRecDepth 4000

/-!
Shallow embedding of `scripts/UiPath-XAML-Lint.ps1` (UiPath XAML linter).

The script is a pipeline of pure text-scanning validation rules over the raw
document text, followed by a result aggregator, a reporter and a batch driver.
Every rule is a pure function of the document text (plus the extracted
namespace table and project context), mutating a shared `ValidationResult`
accumulator; we model the accumulator by explicit state passing.

External effects are modelled as parameters:
 * the .NET XML parser invoked by `[xml]$Content` (Test-XmlWellFormed) becomes
   a parameter `parse : String -> Option String` (`none` = well-formed,
   `some e` = parse error message `e`);
 * file-system reads (project.json discovery, directory enumeration) become
   explicit arguments (`ProjectContext` record, file-content lists).

PowerShell semantics that the embedding reproduces:
 * `-match` / `-notmatch` / `-replace` / `-eq` / `-contains` on strings are
   case-insensitive; `[regex]::Matches` without options is case-sensitive;
 * hashtables created with `@{}` have case-insensitive string keys;
 * capturing a pipeline of 0 / 1 / n results yields null / a scalar / an array.

The regex patterns of the script are transcribed into a small segment-based
pattern language (`Seg`) with a backtracking matcher (`matchC`) that follows
.NET semantics for the constructs the script uses: literals, character
classes, greedy `*`/`+`, alternation, negative lookahead, a one-character
negative lookbehind (handled at search level), and end anchoring.
-/

namespace XamlLint

/-- Severity and compliance statuses are plain strings in the script. -/
structure ValidationIssue where
  rule : String
  severity : String
  message : String
  /-- the script never assigns `Line`; it keeps the .NET default 0 -/
  line : Nat := 0
  /-- the script never assigns `Element`; it keeps the .NET default null -/
  element : Option String := none
deriving DecidableEq, Repr

/-- Project context record produced by Get-ProjectContext (file-system
dependent, hence a parameter of the pipeline in this embedding). -/
structure ProjectContext where
  language : String := "Unknown"
  compatibility : String := "Unknown"
  dependencies : List (String × String) := []
  projectPath : Option String := none
deriving DecidableEq, Repr

/-- The mutable result accumulator of the script. `hr` models the
`HRCompliance` hashtable as an insertion-ordered association list with
case-insensitive keys (PowerShell `@{}` hashtables compare keys
case-insensitively). -/
structure ValidationResult where
  filePath : String := ""
  isValid : Bool := false
  issues : List ValidationIssue := []
  hr : List (String × String) := []
  context : ProjectContext := {}
deriving DecidableEq, Repr

def lowc (c : Char) : Char := c.toLower

def lows (l : List Char) : List Char := l.map lowc

/-- Case-insensitive string equality (PowerShell `-eq` on strings). -/
def eqCI (a b : String) : Bool := lows a.data = lows b.data

/-- Hashtable update: case-insensitive key comparison, the stored key keeps
the casing of the first insertion (PowerShell hashtable behaviour). -/
def htSet : List (String × String) → String → String → List (String × String)
  | [], k, v => [(k, v)]
  | (k', v') :: t, k, v =>
      if eqCI k' k then (k', v) :: t else (k', v') :: htSet t k v

def htHas (l : List (String × String)) (k : String) : Bool :=
  l.any (fun p => eqCI p.1 k)

def htGet (l : List (String × String)) (k : String) : Option String :=
  (l.find? (fun p => eqCI p.1 k)).map (·.2)

def addIssue (r : ValidationResult) (i : ValidationIssue) : ValidationResult :=
  { r with issues := r.issues ++ [i] }

def setHR (r : ValidationResult) (k v : String) : ValidationResult :=
  { r with hr := htSet r.hr k v }

/-! ## Character classes used by the script's regexes -/

def isWS (c : Char) : Bool :=
  c = ' ' || c = '\t' || c = '\n' || c = '\x0d' || c = '\x0b' || c = '\x0c'

def isAsciiLetter (c : Char) : Bool :=
  ('a' ≤ c && c ≤ 'z') || ('A' ≤ c && c ≤ 'Z')

def isDigitC (c : Char) : Bool := '0' ≤ c && c ≤ '9'

def isAlnum (c : Char) : Bool := isAsciiLetter c || isDigitC c

/-- the regex class `[a-zA-Z0-9_]` (and `\w` restricted to ASCII as the
script's inputs are ASCII XAML text) -/
def isWordC (c : Char) : Bool := isAlnum c || c = '_'

/-! ## Pattern language and backtracking matcher -/

/-- Segments of the script's regex patterns. `lit` literals are matched
case-sensitively or case-insensitively according to the matcher's `ci` flag
(`[regex]::Matches` vs `-match`). -/
inductive Seg where
  /-- literal string -/
  | lit (l : List Char)
  /-- single character of a class -/
  | cls (p : Char → Bool)
  /-- greedy `*` over a character class -/
  | many (p : Char → Bool)
  /-- greedy `+` over a character class -/
  | many1 (p : Char → Bool)
  /-- alternation of literals, tried left to right -/
  | anyLit (ls : List (List Char))
  /-- negative lookahead over an alternation of literals -/
  | notAhead (ls : List (List Char))
  /-- end-of-input anchor `$` -/
  | theEnd

/-- Prefix test honouring the case-insensitivity flag. -/
def litPre (ci : Bool) (l s : List Char) : Bool :=
  if ci then (lows l).isPrefixOf (lows s) else l.isPrefixOf s

/-- Greedy repetition in continuation-passing style: alternatives are tried
longest-first, exactly like a greedy `*` in .NET regex. -/
def manyC {α : Type} (p : Char → Bool) (s : List Char)
    (k : List Char → Option α) : Option α :=
  match s with
  | [] => k []
  | c :: s' =>
      if p c then (manyC p s' k).orElse (fun _ => k (c :: s'))
      else k (c :: s')

/-- Literal alternation in continuation-passing style, alternatives tried in
source order with backtracking into the continuation. -/
def anyLitC {α : Type} (ci : Bool) (ls : List (List Char)) (s : List Char)
    (k : List Char → Option α) : Option α :=
  match ls with
  | [] => none
  | l :: rest =>
      (if litPre ci l s then k (s.drop l.length) else none).orElse
        (fun _ => anyLitC ci rest s k)

/-- Backtracking matcher over a segment list, in continuation-passing style.
The continuation receives the unconsumed remainder; alternatives are explored
in the same order as .NET's backtracking engine for these constructs, so the
first success reproduces the match (and match end) the script sees. -/
def matchC {α : Type} (ci : Bool) : List Seg → List Char → (List Char → Option α) → Option α
  | [], s, k => k s
  | .lit l :: segs, s, k =>
      if litPre ci l s then matchC ci segs (s.drop l.length) k else none
  | .cls p :: segs, s, k =>
      match s with
      | [] => none
      | c :: s' => if p c then matchC ci segs s' k else none
  | .many p :: segs, s, k => manyC p s (fun t => matchC ci segs t k)
  | .many1 p :: segs, s, k =>
      match s with
      | [] => none
      | c :: s' => if p c then manyC p s' (fun t => matchC ci segs t k) else none
  | .anyLit ls :: segs, s, k => anyLitC ci ls s (fun t => matchC ci segs t k)
  | .notAhead ls :: segs, s, k =>
      if ls.any (fun l => litPre ci l s) then none else matchC ci segs s k
  | .theEnd :: segs, s, k =>
      match s with
      | [] => matchC ci segs [] k
      | _ :: _ => none

/-- Match at the current position, returning the remainder after the match. -/
def matchEnd (ci : Bool) (segs : List Seg) (s : List Char) : Option (List Char) :=
  matchC ci segs s (fun t => some t)

/-- Does the pattern match starting exactly here? -/
def matchesAt (ci : Bool) (segs : List Seg) (s : List Char) : Bool :=
  (matchEnd ci segs s).isSome

/-- One-character negative lookbehind `(?<![a-zA-Z])`: satisfied at the start
of input or after a non-letter. `lb = false` means the pattern has no
lookbehind. -/
def lbOk (lb : Bool) (prev : Option Char) : Bool :=
  if lb then
    match prev with
    | none => true
    | some c => !(isAsciiLetter c)
  else true

/-- Search for a match anywhere (the boolean `-match` / `IsMatch` semantics),
threading the previous character for the lookbehind. -/
def searchAux (ci lb : Bool) (segs : List Seg) (prev : Option Char) :
    List Char → Bool
  | [] => lbOk lb prev && matchesAt ci segs []
  | c :: s' =>
      (lbOk lb prev && matchesAt ci segs (c :: s')) ||
        searchAux ci lb segs (some c) s'

def searchB (ci lb : Bool) (segs : List Seg) (s : List Char) : Bool :=
  searchAux ci lb segs none s

/-- Case-insensitive literal containment: `-match` on an escaped/literal
pattern. -/
def containsCI (hay needle : String) : Bool :=
  searchB true false [.lit needle.data] hay.data

/-- Case-sensitive literal containment. -/
def containsCS (hay needle : String) : Bool :=
  searchB false false [.lit needle.data] hay.data

/-- All matches of a pattern, left to right, continuing after each match end
(the `[regex]::Matches` enumeration); returns (start index, matched text).
Fuel is the length of the remaining input plus one. -/
def scanMatchesAux (ci : Bool) (segs : List Seg) :
    Nat → Nat → List Char → List (Nat × List Char)
  | 0, _, _ => []
  | fuel + 1, i, s =>
      match matchEnd ci segs s with
      | some rest =>
          let len := s.length - rest.length
          if len = 0 then
            match s with
            | [] => []
            | _ :: s' => scanMatchesAux ci segs fuel (i + 1) s'
          else (i, s.take len) :: scanMatchesAux ci segs fuel (i + len) rest
      | none =>
          match s with
          | [] => []
          | _ :: s' => scanMatchesAux ci segs fuel (i + 1) s'

def scanMatches (ci : Bool) (segs : List Seg) (s : List Char) : List (Nat × List Char) :=
  scanMatchesAux ci segs (s.length + 1) 0 s

/-- Number of matches (`[regex]::Matches(...).Count`). -/
def countMatches (ci : Bool) (segs : List Seg) (s : List Char) : Nat :=
  (scanMatches ci segs s).length

/-- A single-capture match at the current position: pattern prefix `pre`, a
greedy captured run of `capP` (nonempty iff `cap1`), then trailing segments
`post`. In every pattern of the script the character ending the capture is
excluded from the capture class, so the greedy run is exact. Returns (capture,
remainder after the full match). -/
def capAt (ci : Bool) (pre : List Seg) (capP : Char → Bool) (cap1 : Bool)
    (post : List Seg) (s : List Char) : Option (List Char × List Char) :=
  matchC ci pre s (fun rest =>
    let cap := rest.takeWhile capP
    if cap1 && cap.isEmpty then none
    else matchC ci post (rest.drop cap.length) (fun rest' => some (cap, rest')))

/-- All single-capture matches left to right with their start indices. -/
def scanCapAux (ci : Bool) (pre : List Seg) (capP : Char → Bool) (cap1 : Bool)
    (post : List Seg) : Nat → Nat → List Char → List (Nat × List Char)
  | 0, _, _ => []
  | fuel + 1, i, s =>
      match capAt ci pre capP cap1 post s with
      | some (cap, rest) =>
          let len := s.length - rest.length
          if len = 0 then
            match s with
            | [] => []
            | _ :: s' => scanCapAux ci pre capP cap1 post fuel (i + 1) s'
          else (i, cap) :: scanCapAux ci pre capP cap1 post fuel (i + len) rest
      | none =>
          match s with
          | [] => []
          | _ :: s' => scanCapAux ci pre capP cap1 post fuel (i + 1) s'

def scanCap (ci : Bool) (pre : List Seg) (capP : Char → Bool) (cap1 : Bool)
    (post : List Seg) (s : List Char) : List (Nat × List Char) :=
  scanCapAux ci pre capP cap1 post (s.length + 1) 0 s

/-- Captured strings only. -/
def scanCapS (ci : Bool) (pre : List Seg) (capP : Char → Bool) (cap1 : Bool)
    (post : List Seg) (s : String) : List String :=
  (scanCap ci pre capP cap1 post s.data).map (fun p => String.mk p.2)

/-! ## Small string utilities mirroring the script's display logic -/

/-- Display truncation: `if (length > n) { Substring(0, n) + "..." }`. -/
def truncN (n : Nat) (s : String) : String :=
  if s.data.length > n then String.mk (s.data.take n) ++ "..." else s

/-- PowerShell `-join ', '` etc. -/
def joinSep (sep : String) (l : List String) : String :=
  String.intercalate sep l

/-- `Select-Object -Unique` (case-sensitive), keeping first occurrences. -/
def dedupFirstAux : List String → List String → List String
  | [], _ => []
  | x :: xs, seen => if x ∈ seen then dedupFirstAux xs seen else x :: dedupFirstAux xs (x :: seen)

def dedupFirst (l : List String) : List String := dedupFirstAux l []

/-- Case-insensitive deduplication keeping the first casing (PowerShell
hashtable key set). -/
def dedupCIAux : List String → List String → List String
  | [], _ => []
  | x :: xs, seen =>
      if seen.any (fun s => eqCI s x) then dedupCIAux xs seen
      else x :: dedupCIAux xs (x :: seen)

def dedupCI (l : List String) : List String := dedupCIAux l []

/-- `.Trim()` on the ASCII whitespace the documents contain. -/
def trimS (s : String) : String :=
  String.mk (((s.data.dropWhile isWS).reverse.dropWhile isWS).reverse)

/-- Case-insensitive lexicographic order used to model `Sort-Object` on the
prefix display list. -/
def lexLe : List Char → List Char → Bool
  | [], _ => true
  | _ :: _, [] => false
  | a :: as, b :: bs => if a = b then lexLe as bs else decide (a < b)

def strLeCI (a b : String) : Bool := lexLe (lows a.data) (lows b.data)

def insSorted (x : String) : List String → List String
  | [] => [x]
  | y :: ys => if strLeCI x y then x :: y :: ys else y :: insSorted x ys

def sortCI : List String → List String
  | [] => []
  | x :: xs => insSorted x (sortCI xs)

/-- Number of non-overlapping case-sensitive occurrences of a literal. -/
def countOccAux (needle : List Char) : Nat → List Char → Nat
  | 0, _ => 0
  | fuel + 1, s =>
      if needle ≠ [] && needle.isPrefixOf s then
        1 + countOccAux needle fuel (s.drop needle.length)
      else
        match s with
        | [] => 0
        | _ :: t => countOccAux needle fuel t

def countOcc (hay needle : String) : Nat :=
  countOccAux needle.data (hay.data.length + 1) hay.data

/-- `Substring(start, min(len, total - start))` – the bounded trailing window
used by the per-activity checks (`Get-NearbyContent`). -/
def windowAt (content : String) (start len : Nat) : String :=
  String.mk ((content.data.drop start).take len)

/-! ## Namespace extractor (Get-Namespaces) -/

/-- One match of `xmlns:?([a-zA-Z0-9_]*)=["']([^"']+)["']` starting exactly
here; returns ((prefix, uri), remainder after the match). The regex is
deterministic here: when a `:` follows `xmlns` the colon-less alternative of
`:?` can never succeed (the word-class run would stop at the `:` and `=`
would not follow). -/
def xmlnsAt (s : List Char) : Option ((List Char × List Char) × List Char) :=
  if ("xmlns".data).isPrefixOf s then
    let s1 := s.drop 5
    let s2 := match s1 with
      | ':' :: t => t
      | _ => s1
    let pfx := s2.takeWhile isWordC
    match s2.drop pfx.length with
    | '=' :: q :: s4 =>
        if q = '"' || q = '\x27' then
          let uri := s4.takeWhile (fun c => c ≠ '"' && c ≠ '\x27')
          if uri.isEmpty then none
          else
            match s4.drop uri.length with
            | q2 :: rest =>
                if q2 = '"' || q2 = '\x27' then some ((pfx, uri), rest) else none
            | [] => none
        else none
    | _ => none
  else none

def scanXmlnsAux : Nat → List Char → List (List Char × List Char)
  | 0, _ => []
  | fuel + 1, s =>
      match xmlnsAt s with
      | some (pu, rest) => pu :: scanXmlnsAux fuel rest
      | none =>
          match s with
          | [] => []
          | _ :: t => scanXmlnsAux fuel t

/-- Get-Namespaces: later declarations of the same prefix overwrite earlier
ones in the hashtable. -/
def getNamespaces (content : String) : List (String × String) :=
  (scanXmlnsAux (content.data.length + 1) content.data).foldl
    (fun acc pu => htSet acc (String.mk pu.1) (String.mk pu.2)) []

/-! ## Layer 1: Test-XmlWellFormed -/

/-- Test-XmlWellFormed; the .NET `[xml]` parser is the `parse` parameter
(`none` = parses, `some e` = exception with message `e`). -/
def testXmlWellFormed (parse : String → Option String) (content : String)
    (r : ValidationResult) : Bool × ValidationResult :=
  match parse content with
  | none => (true, setHR r "Layer1-XML" "PASS")
  | some e =>
      (false,
        setHR
          (addIssue r
            { rule := "Layer1-XML", severity := "ERROR"
              message := "XML parsing error: " ++ e })
          "Layer1-XML" "FAIL")

/-! ## Test-HR0-TemplateStructure -/

def testHR0 (content : String) (r : ValidationResult) : ValidationResult :=
  if containsCI content "x:Class=" then setHR r "HR-0" "PASS"
  else
    setHR
      (addIssue r
        { rule := "HR-0", severity := "WARNING"
          message := "Missing x:Class attribute - may not be a valid UiPath workflow template" })
      "HR-0" "WARN"

/-! ## Test-HR2-RootInvariants -/

def requiredNamespaces : List String := ["x", "sap2010"]

def testHR2 (content : String) (ns : List (String × String))
    (reg : Option (List (String × String))) (r : ValidationResult) : ValidationResult :=
  let missingNs := requiredNamespaces.filter (fun p => !(htHas ns p))
  let r1 :=
    if missingNs.length > 0 then
      setHR
        (addIssue r
          { rule := "HR-2", severity := "ERROR"
            message := "Missing required namespace prefixes: " ++ joinSep ", " missingNs })
        "HR-2" "FAIL"
    else setHR r "HR-2" "PASS"
  let r2 :=
    match reg with
    | none => r1
    | some registry =>
        let mism := ns.filterMap (fun pu =>
          if pu.1 ≠ "" && htHas registry pu.1 then
            match htGet registry pu.1 with
            | some expected =>
                if !(eqCI expected pu.2) then
                  some (pu.1 ++ " (expected: " ++ expected ++ ", got: " ++ pu.2 ++ ")")
                else none
            | none => none
          else none)
        if mism.length > 0 then
          addIssue r1
            { rule := "Namespace-Registry", severity := "WARNING"
              message := "Namespace URIs don\x27t match registry: " ++ joinSep "; " mism }
        else r1
  if !(containsCI content "mc:Ignorable") && htHas ns "mc" then
    addIssue r2
      { rule := "HR-2", severity := "INFO"
        message := "mc:Ignorable attribute not found (may be expected in some templates)" }
  else r2

/-! ## Test-NamespacePrefixUsage -/

/-- Element-tag prefixes: `<([a-zA-Z0-9_]+):[a-zA-Z0-9_]`, excluding `xml`. -/
def elemPfx (content : String) : List String :=
  (scanCapS false [.lit ['<']] isWordC true [.lit [':'], .cls isWordC] content).filter
    (fun p => !(eqCI p "xml"))

/-- Prefixes inside a type string: `([A-Za-z0-9_]+):`. -/
def innerPfx (v : String) : List String :=
  scanCapS false [] isWordC true [.lit [':']] v

/-- Values of `Type="..."` attributes. -/
def typeAttrVals (content : String) : List String :=
  scanCapS false [.lit ("Type=\"".data)] (· ≠ '"') true [.lit ['"']] content

/-- Values of `x:TypeArguments="..."` attributes. -/
def typeArgVals (content : String) : List String :=
  scanCapS false [.lit ("x:TypeArguments=\"".data)] (· ≠ '"') true [.lit ['"']] content

/-- The set of used prefixes (hashtable key set, case-insensitive, in first
insertion order). -/
def usedPfx (content : String) : List String :=
  dedupCI
    (elemPfx content ++ (typeAttrVals content).flatMap innerPfx ++
      (typeArgVals content).flatMap innerPfx)

/-- Used-but-undeclared prefixes (ContainsKey is case-insensitive). -/
def missingPfx (content : String) (ns : List (String × String)) : List String :=
  (usedPfx content).filter (fun p => !(htHas ns p))

def testNamespacePrefixUsage (content : String) (ns : List (String × String))
    (r : ValidationResult) : ValidationResult :=
  let missing := missingPfx content ns
  if missing.length > 0 then
    let disp := joinSep ", " (sortCI missing)
    setHR
      (addIssue r
        { rule := "HR-Namespace-Usage", severity := "ERROR"
          message := "Namespace prefix(es) used but not declared: " ++ disp })
      "HR-Namespace-Usage" "FAIL"
  else setHR r "HR-Namespace-Usage" "PASS"

/-! ## Test-HR3-PrimaryContainer -/

def primaryContainers : List String := ["Sequence", "Flowchart", "StateMachine"]

def containersFound (content : String) : List String :=
  primaryContainers.flatMap (fun c =>
    List.replicate
      (countMatches false [.lit ("<" ++ c).data, .cls (fun ch => isWS ch || ch = '>')]
        content.data)
      c)

def testHR3 (content : String) (r : ValidationResult) : ValidationResult :=
  let found := containersFound content
  if found.length = 0 then
    setHR
      (addIssue r
        { rule := "HR-3", severity := "ERROR"
          message := "No primary container found. Expected one of: " ++
            joinSep ", " primaryContainers })
      "HR-3" "FAIL"
  else if found.length > 1 then
    setHR
      (addIssue r
        { rule := "HR-3", severity := "INFO"
          message := "Multiple containers found: " ++ joinSep ", " found ++
            ". Ensure proper nesting." })
      "HR-3" "PASS"
  else setHR r "HR-3" "PASS"

/-! ## Test-HR4-ArgumentsVariables -/

/-- Argument names: `<x:Property\s+Name="([^"]+)"`. -/
def argsOf (content : String) : List String :=
  scanCapS false [.lit ("<x:Property".data), .many1 isWS, .lit ("Name=\"".data)]
    (· ≠ '"') true [.lit ['"']] content

/-- Variable names: `<Variable\s+[^>]*Name="([^"]+)"`. -/
def varsOf (content : String) : List String :=
  scanCapS false
    [.lit ("<Variable".data), .many1 isWS, .many (· ≠ '>'), .lit ("Name=\"".data)]
    (· ≠ '"') true [.lit ['"']] content

def hasDirPrefix (a : String) : Bool :=
  ("in_".data).isPrefixOf a.data || ("out_".data).isPrefixOf a.data ||
    ("io_".data).isPrefixOf a.data

def testHR4 (content : String) (r : ValidationResult) : ValidationResult :=
  let args := argsOf content
  let invalidArgs := args.filter (fun a => !(hasDirPrefix a))
  let r1 :=
    if invalidArgs.length > 0 then
      let disp :=
        if invalidArgs.length > 5 then joinSep ", " (invalidArgs.take 5) ++ "..."
        else joinSep ", " invalidArgs
      addIssue r
        { rule := "HR-4", severity := "WARNING"
          message := "Arguments missing standard prefix (in_/out_/io_): " ++ disp }
    else r
  let vars := varsOf content
  let shadowed := vars.filter (fun v => args.any (fun a => eqCI a v))
  if shadowed.length > 0 then
    setHR
      (addIssue r1
        { rule := "HR-4", severity := "ERROR"
          message := "Variables shadow argument names: " ++ joinSep ", " shadowed })
      "HR-4" "FAIL"
  else setHR r1 "HR-4" "PASS"

/-! ## Test-HR5-IdRefUniqueness -/

def idrefsOf (content : String) : List String :=
  scanCapS false [.lit ("sap2010:WorkflowViewState.IdRef=\"".data)] (· ≠ '"') true
      [.lit ['"']] content ++
    scanCapS false [.lit ("sap:WorkflowViewState.IdRef=\"".data)] (· ≠ '"') true
      [.lit ['"']] content

/-- Duplicate collection with a case-insensitive `seen` hashtable: each
occurrence whose value was already seen is appended. -/
def dupAux : List String → List String → List String
  | _, [] => []
  | seen, x :: xs =>
      (if seen.any (fun s => eqCI s x) then [x] else []) ++ dupAux (x :: seen) xs

def dupsOf (idrefs : List String) : List String := dupAux [] idrefs

def testHR5 (content : String) (r : ValidationResult) : ValidationResult :=
  let idrefs := idrefsOf content
  if idrefs.length = 0 then setHR r "HR-5" "N/A"
  else
    let duplicates := dupsOf idrefs
    if duplicates.length > 0 then
      let uniqueDupes := dedupFirst duplicates
      let disp :=
        if uniqueDupes.length > 5 then joinSep ", " (uniqueDupes.take 5) ++ "..."
        else joinSep ", " uniqueDupes
      setHR
        (addIssue r
          { rule := "HR-5", severity := "ERROR"
            message := "Duplicate IdRefs found: " ++ disp })
        "HR-5" "FAIL"
    else setHR r "HR-5" "PASS"

/-! ## Test-HR503-IdRefDualDeclaration -/

def idrefAttrVals (content : String) : List String :=
  scanCapS false [.lit ("sap2010:WorkflowViewState.IdRef=\"".data)] (· ≠ '"') true
    [.lit ['"']] content

def idrefElemVals (content : String) : List String :=
  scanCapS false [.lit ("<sap2010:WorkflowViewState.IdRef>".data)] (· ≠ '<') true
    [.lit ("</sap2010:WorkflowViewState.IdRef>".data)] content

def testHR503 (content : String) (r : ValidationResult) : ValidationResult :=
  let attrVals := idrefAttrVals content
  let elemVals := idrefElemVals content
  let dual := (elemVals.map trimS).filter (fun v => attrVals.any (fun a => eqCI a v))
  if elemVals.length > 0 && dual.length = 0 then
    setHR
      (addIssue r
        { rule := "HR-503", severity := "WARNING"
          message := "IdRef uses element syntax (<sap2010:WorkflowViewState.IdRef>). Prefer attribute syntax for consistency." })
      "HR-503" "WARN"
  else if dual.length > 0 then
    let disp :=
      if dual.length > 3 then joinSep ", " (dual.take 3) ++ "..."
      else joinSep ", " dual
    setHR
      (addIssue r
        { rule := "HR-503", severity := "ERROR"
          message := "IdRef declared both as attribute AND child element (causes \x27IdRef property already set\x27 error): " ++ disp })
      "HR-503" "FAIL"
  else setHR r "HR-503" "PASS"

/-! ## Test-HR6-ExpressionEncoding -/

def hr6Vals (content : String) : List String :=
  scanCapS false
    [.anyLit ["Value=\"".data, "Expression=\"".data, "Condition=\"".data]]
    (· ≠ '"') false [.lit ['"']] content

def hr6IssuesFor (v : String) : List String :=
  (if containsCI v "&" && !(containsCI v "&amp;") && !(containsCI v "&lt;") &&
      !(containsCI v "&gt;") && !(containsCI v "&quot;") then
    ["Potentially unescaped \x27&\x27 in: " ++ truncN 50 v]
  else []) ++
  (if searchB true false [.lit ['<'], .notAhead [['&']]] v.data ||
      searchB true false [.lit ['>'], .notAhead [['&']]] v.data then
    ["Potentially unescaped \x27<\x27 or \x27>\x27 in expression"]
  else [])

def testHR6 (content : String) (r : ValidationResult) : ValidationResult :=
  let issuesFound := (hr6Vals content).flatMap hr6IssuesFor
  if issuesFound.length > 0 then
    let disp :=
      if issuesFound.length > 3 then joinSep "; " (issuesFound.take 3)
      else joinSep "; " issuesFound
    setHR
      (addIssue r
        { rule := "HR-6", severity := "WARNING"
          message := "Potential expression encoding issues: " ++ disp })
      "HR-6" "WARN"
  else setHR r "HR-6" "PASS"

/-! ## Generic fueled left-to-right scanner -/

/-- Scan a string left to right with an arbitrary match-at-position step
(the `[regex]::Matches` loop for patterns needing a custom step); returns
(start index, payload) and continues after each match end. -/
def scanWith {β : Type} (step : List Char → Option (β × List Char)) :
    Nat → Nat → List Char → List (Nat × β)
  | 0, _, _ => []
  | fuel + 1, i, s =>
      match step s with
      | some (b, rest) =>
          let len := s.length - rest.length
          if len = 0 then
            match s with
            | [] => []
            | _ :: t => scanWith step fuel (i + 1) t
          else (i, b) :: scanWith step fuel (i + len) rest
      | none =>
          match s with
          | [] => []
          | _ :: t => scanWith step fuel (i + 1) t

/-! ## Test-DoubleEncoding -/

/-- The four double-encoded entity patterns with their display strings. -/
def doubleEncodedPats : List (String × String) :=
  [("&amp;quot;", "&amp;quot; (should be &quot;)"),
   ("&amp;lt;", "&amp;lt; (should be &lt;)"),
   ("&amp;gt;", "&amp;gt; (should be &gt;)"),
   ("&amp;amp;", "&amp;amp; (should be &amp;)")]

/-- Values of `(?:Message|Value|Condition|Expression|Text|Code)="([^"]*)"`. -/
def exprAttrVals (content : String) : List String :=
  scanCapS false
    [.anyLit ["Message=\"".data, "Value=\"".data, "Condition=\"".data,
              "Expression=\"".data, "Text=\"".data, "Code=\"".data]]
    (· ≠ '"') false [.lit ['"']] content

def selectorElementNames : List String :=
  ["Selector", "FullSelectorArgument", "FuzzySelectorArgument"]

/-- One match of
`<((?:In|Out|InOut)Argument[^>]*|Assign\.Value|Assign\.To|ui:LogMessage[^>]*)>([^<]+)</`
starting exactly here: ((tag, body), remainder after the trailing `</`). -/
def argElemAt (s : List Char) : Option ((List Char × List Char) × List Char) :=
  match s with
  | '<' :: s1 =>
      let tagged (segs : List Seg) : Option ((List Char × List Char) × List Char) :=
        matchC false segs s1 (fun rest =>
          let tag := s1.take (s1.length - rest.length)
          match rest with
          | '>' :: r2 =>
              let body := r2.takeWhile (· ≠ '<')
              if body.isEmpty then none
              else
                match r2.drop body.length with
                | '<' :: '/' :: r3 => some ((tag, body), r3)
                | _ => none
          | _ => none)
      (tagged [.anyLit ["In".data, "Out".data, "InOut".data], .lit ("Argument".data),
          .many (· ≠ '>')]).orElse (fun _ =>
        (tagged [.lit ("Assign.Value".data)]).orElse (fun _ =>
          (tagged [.lit ("Assign.To".data)]).orElse (fun _ =>
            tagged [.lit ("ui:LogMessage".data), .many (· ≠ '>')])))
  | _ => none

/-- One match of `>([^<]{4,})</` starting exactly here: (body, remainder). -/
def genBodyAt (s : List Char) : Option (List Char × List Char) :=
  match s with
  | '>' :: s1 =>
      let body := s1.takeWhile (· ≠ '<')
      if body.length ≥ 4 then
        match s1.drop body.length with
        | '<' :: '/' :: r => some (body, r)
        | _ => none
      else none
  | _ => none

/-- The `"<[^>]*SEL[^>]*>\s*$"` context test used to skip selector bodies. -/
def selectorCtxMatch (ctx : String) (sel : String) : Bool :=
  searchB true false
    [.lit ['<'], .many (· ≠ '>'), .lit sel.data, .many (· ≠ '>'), .lit ['>'],
     .many isWS, .theEnd] ctx.data

def doubleEncIssues (content : String) : List String :=
  let fromAttrs :=
    (exprAttrVals content).flatMap (fun v =>
      doubleEncodedPats.filterMap (fun dp =>
        if containsCI v dp.1 then
          some ("Double-encoding " ++ dp.2 ++ " in: " ++ truncN 60 v)
        else none))
  let argBodies := scanWith argElemAt (content.data.length + 1) 0 content.data
  let fromArgElems :=
    argBodies.flatMap (fun m =>
      let tag := String.mk m.2.1
      let body := String.mk m.2.2
      if selectorElementNames.any (fun sel => containsCI tag sel) then []
      else
        doubleEncodedPats.filterMap (fun dp =>
          if containsCI body dp.1 then
            some ("Double-encoding " ++ dp.2 ++ " in element body: " ++ truncN 60 body)
          else none))
  let generic := scanWith genBodyAt (content.data.length + 1) 0 content.data
  let withGeneric :=
    generic.foldl (fun acc m =>
      let idx := m.1
      let body := String.mk m.2
      let ctxStart := idx - min idx 200
      let ctx := windowAt content ctxStart (min 200 (idx - ctxStart))
      if selectorElementNames.any (fun sel => selectorCtxMatch ctx sel) then acc
      else
        doubleEncodedPats.foldl (fun acc2 dp =>
          if containsCI body dp.1 then
            let msg := "Double-encoding " ++ dp.2 ++ " in element body: " ++ truncN 60 body
            if acc2.any (fun x => eqCI x msg) then acc2 else acc2 ++ [msg]
          else acc2) acc)
      (fromAttrs ++ fromArgElems)
  withGeneric

def testDoubleEncoding (content : String) (r : ValidationResult) : ValidationResult :=
  let issuesFound := doubleEncIssues content
  if issuesFound.length > 0 then
    let disp :=
      if issuesFound.length > 3 then joinSep "; " (issuesFound.take 3) ++ "..."
      else joinSep "; " issuesFound
    setHR
      (addIssue r
        { rule := "HR-Double-Encoding", severity := "ERROR"
          message := "Double-encoding detected in expression attributes: " ++ disp })
      "HR-Double-Encoding" "FAIL"
  else setHR r "HR-Double-Encoding" "PASS"

/-! ## Test-HR7-NoUIAutomation -/

def hr7TagPats : List (String × String) :=
  [("<ui:Click", "Click activity"), ("<ui:TypeInto", "TypeInto activity"),
   ("<ui:GetText", "GetText activity"), ("<ui:SetText", "SetText activity"),
   ("<ui:Hover", "Hover activity"), ("<ui:SendHotkey", "SendHotkey activity"),
   ("<ui:SelectItem", "SelectItem activity"), ("<ui:FindElement", "FindElement activity"),
   ("<ui:ElementExists", "ElementExists activity"), ("<ui:WaitElement", "WaitElement activity"),
   ("<ui:AttachBrowser", "AttachBrowser activity"), ("<ui:OpenBrowser", "OpenBrowser activity"),
   ("<ui:CloseBrowser", "CloseBrowser activity"), ("<ui:NavigateTo", "NavigateTo activity"),
   ("<ui:TakeScreenshot", "TakeScreenshot activity"), ("<ui:GetAttribute", "GetAttribute activity"),
   ("<ui:SetAttribute", "SetAttribute activity"), ("<Click", "Click activity"),
   ("<TypeInto", "TypeInto activity"), ("<GetText", "GetText activity"),
   ("<OpenBrowser", "OpenBrowser activity"), ("<AttachBrowser", "AttachBrowser activity")]

def uiSelectorRoots : List String := ["html", "webctrl", "wnd", "uia", "ctrl", "aa"]

def uiActivitiesFound (content : String) : List String :=
  (hr7TagPats.filterMap (fun p =>
    if searchB true false [.lit p.1.data, .cls (fun c => isWS c || c = '>')] content.data
    then some p.2 else none)) ++
  (if searchB true false
      [.lit ("Selector".data), .many isWS, .lit ['='], .many isWS,
        .lit ("\"&lt;".data), .anyLit (uiSelectorRoots.map String.data)] content.data ||
     searchB true false
      [.lit ("Selector".data), .many isWS, .lit ['='], .many isWS,
        .lit ("\"<".data), .anyLit (uiSelectorRoots.map String.data)] content.data then
    ["Selector attribute with UI selector"]
  else []) ++
  (if containsCI content "clr-namespace:UiPath.UIAutomation.Activities" then
    ["UiPath.UIAutomation.Activities namespace import"]
  else [])

def testHR7 (content : String) (r : ValidationResult) : ValidationResult :=
  let found := uiActivitiesFound content
  if found.length > 0 then
    let uniqueFound := dedupFirst found
    let displayList := joinSep ", " (uniqueFound.take (min 5 uniqueFound.length))
    setHR
      (addIssue r
        { rule := "HR-7", severity := "ERROR"
          message := "UI automation detected (forbidden): " ++ displayList })
      "HR-7" "FAIL"
  else setHR r "HR-7" "PASS"

/-! ## Test-HR9-FlowchartViewState -/

def testHR9 (content : String) (r : ValidationResult) : ValidationResult :=
  if !(containsCI content "<Flowchart") then setHR r "HR-9" "N/A"
  else
    let hasShapeLocation := containsCI content "ShapeLocation"
    let hasShapeSize := containsCI content "ShapeSize"
    let totalFlowNodes := countOcc content "<FlowStep" + countOcc content "<FlowDecision"
    if totalFlowNodes > 0 && !(hasShapeLocation && hasShapeSize) then
      setHR
        (addIssue r
          { rule := "HR-9", severity := "WARNING"
            message := "Flowchart has " ++ toString totalFlowNodes ++
              " nodes but may be missing ViewState positioning (ShapeLocation/ShapeSize). Nodes may appear disconnected in designer." })
        "HR-9" "WARN"
    else setHR r "HR-9" "PASS"

/-! ## Test-HR701-InvokeCodeLateBinding -/

def invokeCodeVals (content : String) : List String :=
  scanCapS false [.lit ("<ui:InvokeCode".data), .many (· ≠ '>'), .lit ("Code=\"".data)]
    (· ≠ '"') false [.lit ['"']] content

/-- Case-insensitive replace-all of a literal (PowerShell `-replace`). -/
def replaceAllCIAux (needle rep : List Char) : Nat → List Char → List Char
  | 0, s => s
  | fuel + 1, s =>
      if needle ≠ [] && litPre true needle s then
        rep ++ replaceAllCIAux needle rep fuel (s.drop needle.length)
      else
        match s with
        | [] => []
        | c :: t => c :: replaceAllCIAux needle rep fuel t

def replaceAllCI (hay needle rep : String) : String :=
  String.mk (replaceAllCIAux needle.data rep.data (hay.data.length + 1) hay.data)

/-- The entity-decoding chain applied to InvokeCode bodies. -/
def decodeEntities (code : String) : String :=
  let c1 := replaceAllCI code "&#xD;&#xA;" "\n"
  let c2 := replaceAllCI c1 "&#xD;" "\x0d"
  let c3 := replaceAllCI c2 "&#xA;" "\n"
  let c4 := replaceAllCI c3 "&quot;" "\""
  let c5 := replaceAllCI c4 "&lt;" "<"
  let c6 := replaceAllCI c5 "&gt;" ">"
  let c7 := replaceAllCI c6 "&amp;" "&"
  replaceAllCI c7 "&#x9;" "\t"

/-- `Dim\s+(\w+)\s+As\s+Object` (IgnoreCase). -/
def dimObjectVars (code : String) : List String :=
  scanCapS true [.lit ("Dim".data), .many1 isWS] isWordC true
    [.many1 isWS, .lit ("As".data), .many1 isWS, .lit ("Object".data)] code

/-- `(\w+)\s*=\s*CreateObject\s*\(` (IgnoreCase). -/
def createObjectVars (code : String) : List String :=
  scanCapS true [] isWordC true
    [.many isWS, .lit ['='], .many isWS, .lit ("CreateObject".data), .many isWS,
     .lit ['(']] code

/-- One match of
`(\w+)\s*=\s*(?:CType\s*\()?\s*(?:System\.Runtime\.InteropServices\.)?Marshal\.BindToMoniker`
starting exactly here (IgnoreCase); optional groups are tried present-first. -/
def monikerAt (s : List Char) : Option (List Char × List Char) :=
  let name := s.takeWhile isWordC
  if name.isEmpty then none
  else
    match (s.drop name.length).dropWhile isWS with
    | '=' :: s2 =>
        let s3 := s2.dropWhile isWS
        let finish (t : List Char) : Option (List Char × List Char) :=
          let t1 := t.dropWhile isWS
          let t2 :=
            if litPre true ("System.Runtime.InteropServices.".data) t1 then
              t1.drop 31
            else t1
          if litPre true ("Marshal.BindToMoniker".data) t2 then
            some (name, t2.drop 21)
          else none
        let withCType : Option (List Char × List Char) :=
          if litPre true ("CType".data) s3 then
            match (s3.drop 5).dropWhile isWS with
            | '(' :: t => finish t
            | _ => none
          else none
        withCType.orElse (fun _ => finish s3)
    | _ => none

def monikerVars (code : String) : List String :=
  (scanWith monikerAt (code.data.length + 1) 0 code.data).map (fun m => String.mk m.2)

/-- The accumulated Object-typed variable names of one InvokeCode body, with
the `-notcontains` (case-insensitive) duplicate guards of the script. -/
def objectVarNames (decoded : String) : List String :=
  let base := dimObjectVars decoded
  let withCom :=
    (createObjectVars decoded).foldl (fun acc v =>
      if acc.any (fun x => eqCI x v) then acc else acc ++ [v]) base
  (monikerVars decoded).foldl (fun acc v =>
    if acc.any (fun x => eqCI x v) then acc else acc ++ [v]) withCom

/-- `varName\.\w+(?:\s*\(|\s*=|\s*\.|\s*$|\s*&|\s*\))` (IgnoreCase). -/
def directAccess (decoded : String) (v : String) : Bool :=
  let base : List Seg := [.lit v.data, .lit ['.'], .many1 isWordC]
  let tails : List (List Seg) :=
    [[.many isWS, .lit ['(']], [.many isWS, .lit ['=']], [.many isWS, .lit ['.']],
     [.many isWS, .theEnd], [.many isWS, .lit ['&']], [.many isWS, .lit [')']]]
  tails.any (fun t => searchB true false (base ++ t) decoded.data)

/-- `CallByName\s*\(\s*varName` (IgnoreCase). -/
def callByNameSafe (decoded : String) (v : String) : Bool :=
  searchB true false
    [.lit ("CallByName".data), .many isWS, .lit ['('], .many isWS, .lit v.data]
    decoded.data

/-- Index of the first case-insensitive occurrence of a literal, if any. -/
def findCIAux (needle : List Char) : Nat → List Char → Option Nat
  | _, [] => if litPre true needle [] then some 0 else none
  | i, s@(_ :: t) =>
      if litPre true needle s then some i else findCIAux needle (i + 1) t

/-- The value of the first (lazy) match of `With\s+v[\s\S]*?End With`
(IgnoreCase): from the first `With\s+v` start through the first following
`End With`. -/
def withBlockContent (decoded : String) (v : String) : Option String :=
  let code := decoded.data
  let startSegs : List Seg := [.lit ("With".data), .many1 isWS, .lit v.data]
  let rec go (i : Nat) (s : List Char) (fuel : Nat) : Option String :=
    match fuel with
    | 0 => none
    | fuel + 1 =>
        if matchesAt true startSegs s then
          match findCIAux ("End With".data) 0 s with
          | some j => some (String.mk (s.take (j + 8)))
          | none => none
        else
          match s with
          | [] => none
          | _ :: t => go (i + 1) t fuel
  go 0 code (code.length + 1)

/-- `With\s+varName\s` (IgnoreCase). -/
def hasWithBlock (decoded : String) (v : String) : Bool :=
  searchB true false [.lit ("With".data), .many1 isWS, .lit v.data, .cls isWS]
    decoded.data

def lateBindingFoundFor (decoded : String) : List String :=
  let names := objectVarNames decoded
  let direct :=
    names.foldl (fun acc v =>
      if directAccess decoded v && !(callByNameSafe decoded v) then acc ++ [v] else acc) []
  names.foldl (fun acc v =>
    if hasWithBlock decoded v then
      match withBlockContent decoded v with
      | some wc =>
          if searchB true false [.lit ['.'], .cls isWordC] wc.data then
            if acc.any (fun x => eqCI x v) then acc
            else acc ++ [v ++ " (With block)"]
          else acc
      | none => acc
    else acc) direct

def lateBindingIssues (content : String) : List String :=
  (invokeCodeVals content).filterMap (fun codeContent =>
    let decoded := decodeEntities codeContent
    if (objectVarNames decoded).isEmpty then none
    else
      let found := lateBindingFoundFor decoded
      if found.length > 0 then
        let uniqueVars := dedupFirst found
        let disp :=
          if uniqueVars.length > 3 then joinSep ", " (uniqueVars.take 3) ++ "..."
          else joinSep ", " uniqueVars
        some ("Late binding on Object variables: " ++ disp ++
          ". Use CallByName() or strongly-typed COM interfaces.")
      else none)

def testHR701 (content : String) (r : ValidationResult) : ValidationResult :=
  let issues := lateBindingIssues content
  if issues.length > 0 then
    let disp :=
      if issues.length > 2 then joinSep "; " (issues.take 2) ++ "..."
      else joinSep "; " issues
    setHR
      (addIssue r
        { rule := "HR-701", severity := "ERROR"
          message := "InvokeCode late binding detected (Option Strict violation): " ++ disp })
      "HR-701" "FAIL"
  else setHR r "HR-701" "PASS"

/-! ## Test-SecretsDetection -/

/-- A secrets pattern: lookbehind flag `(?<![a-zA-Z])`, segments, display
name. All matching is case-insensitive (`-match`). -/
structure SecretPat where
  lb : Bool
  segs : List Seg
  name : String

def notQuote (c : Char) : Bool := c ≠ '"'

/-- `(?!\{x:Null\}|\[)` -/
def laNullExpr : Seg := .notAhead ["\x7bx:Null\x7d".data, "[".data]

/-- `(?!\{x:Null\}|\[|False|True)` -/
def laNullExprBool : Seg :=
  .notAhead ["\x7bx:Null\x7d".data, "[".data, "False".data, "True".data]

def isB64C (c : Char) : Bool := isAlnum c || c = '+' || c = '/' || c = '='

def isBearerC (c : Char) : Bool := isAlnum c || c = '-' || c = '_' || c = '.'

/-- The second pattern of the table
(`(?<![a-zA-Z])Password\s*=\s*"(?!\{x:Null\}|\[|False|True)[^"]+"`), named
so that theorems can refer to it. -/
def secretPw : SecretPat :=
  { lb := true
    segs := [.lit ("Password".data), .many isWS, .lit ['='], .many isWS, .lit ['"'],
             laNullExprBool, .many1 notQuote, .lit ['"']]
    name := "Hardcoded Password property" }

/-- The `$Script:SecretsPatterns` table, transcribed pattern by pattern. -/
def secretsPatterns : List SecretPat :=
  [ { lb := true
      segs := [.lit ("password".data), .many isWS, .lit ['='], .many isWS, .lit ['"'],
               laNullExprBool, .many1 notQuote, .many1 isAlnum, .lit ['"']]
      name := "Hardcoded password" },
    secretPw,
    { lb := true
      segs := [.lit ("apikey".data), .many isWS, .lit ['='], .many isWS, .lit ['"'],
               laNullExpr, .many1 notQuote, .lit ['"']]
      name := "Hardcoded API key" },
    { lb := true
      segs := [.lit ("ApiKey".data), .many isWS, .lit ['='], .many isWS, .lit ['"'],
               laNullExpr, .many1 notQuote, .lit ['"']]
      name := "Hardcoded ApiKey property" },
    { lb := true
      segs := [.lit ("api_key".data), .many isWS, .lit ['='], .many isWS, .lit ['"'],
               laNullExpr, .many1 notQuote, .lit ['"']]
      name := "Hardcoded api_key" },
    { lb := true
      segs := [.lit ("secret".data), .many isWS, .lit ['='], .many isWS, .lit ['"'],
               laNullExpr, .many1 notQuote, .lit ['"']]
      name := "Hardcoded secret" },
    { lb := true
      segs := [.lit ("Secret".data), .many isWS, .lit ['='], .many isWS, .lit ['"'],
               laNullExpr, .many1 notQuote, .lit ['"']]
      name := "Hardcoded Secret property" },
    { lb := true
      segs := [.lit ("token".data), .many isWS, .lit ['='], .many isWS, .lit ['"'],
               laNullExpr] ++ List.replicate 20 (Seg.cls notQuote) ++
              [.many notQuote, .lit ['"']]
      name := "Hardcoded token (long string)" },
    { lb := true
      segs := [.lit ("Token".data), .many isWS, .lit ['='], .many isWS, .lit ['"'],
               laNullExpr] ++ List.replicate 20 (Seg.cls notQuote) ++
              [.many notQuote, .lit ['"']]
      name := "Hardcoded Token property" },
    { lb := false
      segs := [.lit ("bearer".data), .many1 isWS, .many1 isBearerC]
      name := "Hardcoded Bearer token" },
    { lb := false
      segs := [.lit ("Authorization".data), .many (· ≠ '\n'), .lit ("Basic".data),
               .many1 isWS, .many1 isB64C]
      name := "Hardcoded Basic auth" },
    { lb := false
      segs := [.lit ("connectionstring".data), .many isWS, .lit ['='], .many isWS,
               .lit ['"'], .many notQuote, .lit ("password".data), .many notQuote,
               .lit ['"']]
      name := "Connection string with password" },
    { lb := false
      segs := [.lit ("ConnectionString".data), .many isWS, .lit ['='], .many isWS,
               .lit ['"'], .many notQuote, .lit ("Password".data), .many notQuote,
               .lit ['"']]
      name := "ConnectionString with Password" },
    { lb := false
      segs := [.lit ("CredentialAssetName".data), .many isWS, .lit ['='], .many isWS,
               .lit ("\"\"".data)]
      name := "Empty credential asset name" },
    { lb := true
      segs := [.lit ("SecureString".data), .many isWS, .lit ['='], .many isWS,
               .lit ['"'], laNullExpr, .many1 notQuote, .lit ['"']]
      name := "Hardcoded SecureString value" } ]

def secretsFound (content : String) : List String :=
  (secretsPatterns.filter (fun p => searchB true p.lb p.segs content.data)).map (·.name)

def testSecretsDetection (content : String) (r : ValidationResult) : ValidationResult :=
  let found := secretsFound content
  if found.length > 0 then
    let uniqueFound := dedupFirst found
    setHR
      (addIssue r
        { rule := "Secrets", severity := "ERROR"
          message := "Potential hardcoded secrets detected: " ++ joinSep ", " uniqueFound ++
            ". Use Orchestrator assets/credentials instead." })
      "Secrets" "FAIL"
  else setHR r "Secrets" "PASS"

/-! ## Test-TypeSystem -/

def varTypeVals (content : String) : List String :=
  scanCapS false [.lit ("<Variable".data), .many1 isWS, .lit ("x:TypeArguments=\"".data)]
    (· ≠ '"') true [.lit ['"']] content

def typeIssuesFor (t : String) : List String :=
  if t = "" then []
  else
    (match t.data with
     | [] => []
     | c :: cs =>
         if isWS c || isWS (cs.getLastD c) then
           ["Type with leading/trailing spaces: \x27" ++ t ++ "\x27"]
         else []) ++
    (if containsCI t "(" && !(containsCI t "(Of ") then
      if searchB true false [.lit ['('], .cls (fun c => lowc c ≠ 'o')] t.data then
        ["Potentially malformed generic type: \x27" ++ t ++
          "\x27 - VB uses (Of T) syntax"]
      else []
    else [])

def nameIssuesFor (n : String) : List String :=
  if n = "" then []
  else
    (if n.data.any isWS then
      ["Variable/argument name contains spaces: \x27" ++ n ++ "\x27"]
    else []) ++
    (match n.data with
     | c :: _ => if isDigitC c then
         ["Variable/argument name starts with digit: \x27" ++ n ++ "\x27"]
       else []
     | [] => [])

def typeSystemIssues (content : String) : List String :=
  let allTypes := dedupFirst (typeArgVals content ++ varTypeVals content)
  let allNames := dedupFirst (varsOf content ++ argsOf content)
  allTypes.flatMap typeIssuesFor ++ allNames.flatMap nameIssuesFor

def testTypeSystem (content : String) (r : ValidationResult) : ValidationResult :=
  let typeIssues := typeSystemIssues content
  if typeIssues.length > 0 then
    let disp :=
      if typeIssues.length > 3 then joinSep "; " (typeIssues.take 3) ++ "..."
      else joinSep "; " typeIssues
    setHR
      (addIssue r
        { rule := "TypeSystem", severity := "WARNING"
          message := "Type system issues: " ++ disp })
      "TypeSystem" "WARN"
  else setHR r "TypeSystem" "PASS"

/-! ## Test-ExpressionLanguage -/

def vbExprPats : List (List Seg) :=
  [[.lit (" And ".data)], [.lit (" Or ".data)], [.lit (" Not ".data)],
   [.lit (" AndAlso ".data)], [.lit (" OrElse ".data)],
   [.lit ("String.IsNullOrEmpty".data)], [.lit ("CStr(".data)], [.lit ("CInt(".data)],
   [.lit ("CBool(".data)], [.lit ("CDate(".data)], [.lit ("DirectCast(".data)],
   [.lit ("TryCast(".data)], [.lit ("GetType(".data)],
   [.lit ("TypeOf ".data), .many (· ≠ '\n'), .lit (" Is ".data)],
   [.lit (" & \"".data)], [.lit ("\" & ".data)], [.lit ("Nothing".data)],
   [.lit (".ToString(\"".data)], [.lit ("Is Nothing".data)],
   [.lit ("IsNot Nothing".data)]]

def csExprPats : List (List Seg) :=
  [[.lit (" && ".data)], [.lit (" || ".data)], [.lit (" ? ".data)], [.lit (" : ".data)],
   [.lit ("string.IsNullOrEmpty".data)], [.lit ("(string)".data)], [.lit ("(int)".data)],
   [.lit ("(bool)".data)], [.lit (" as ".data)], [.lit (" is ".data)],
   [.lit ("typeof(".data)], [.lit (" + \"".data)], [.lit ("\" + ".data)],
   [.lit ("null".data)], [.lit (" == null".data)], [.lit (" != null".data)]]

def vbIndicators (content : String) : Nat :=
  (vbExprPats.map (fun p => countMatches false p content.data)).sum

def csIndicators (content : String) : Nat :=
  (csExprPats.map (fun p => countMatches false p content.data)).sum

def testExpressionLanguage (content : String) (r : ValidationResult)
    (expectedLanguage : String) : ValidationResult :=
  if expectedLanguage = "" || eqCI expectedLanguage "Unknown" then
    setHR r "ExpressionLang" "N/A"
  else
    let vb := vbIndicators content
    let cs := csIndicators content
    let detected := if vb > cs then "VB" else if cs > vb then "CSharp" else "Unknown"
    if detected ≠ "Unknown" && !(eqCI detected expectedLanguage) then
      setHR
        (addIssue r
          { rule := "ExpressionLang", severity := "WARNING"
            message := "Expression language mismatch: project is " ++ expectedLanguage ++
              " but expressions appear to be " ++ detected ++ " (VB indicators: " ++
              toString vb ++ ", C# indicators: " ++ toString cs ++ ")" })
        "ExpressionLang" "WARN"
    else setHR r "ExpressionLang" "PASS"

/-! ## Test-FlowchartStructure -/

def flowStepMatches (content : String) : List (Nat × List Char) :=
  scanMatches false [.lit ("<FlowStep".data), .many (· ≠ '>'), .lit ['>']] content.data

def flowDecisionMatches (content : String) : List (Nat × List Char) :=
  scanMatches false [.lit ("<FlowDecision".data), .many (· ≠ '>'), .lit ['>']] content.data

def xRefIds (content : String) : List String :=
  scanCapS false [.lit ("<x:Reference>".data)] (· ≠ '<') true
    [.lit ("</x:Reference>".data)] content

def flowchartStructureIssues (content : String) : List String :=
  (if !(containsCI content "<Flowchart.StartNode>") then ["Flowchart missing StartNode"]
   else []) ++
  (let stepsWithoutName :=
    ((flowStepMatches content).filter
      (fun m => !(containsCI (String.mk m.2) "x:Name="))).length
   if stepsWithoutName > 0 then
     [toString stepsWithoutName ++ " FlowStep(s) without x:Name (may cause reference issues)"]
   else []) ++
  ((xRefIds content).filterMap (fun refId =>
    -- the script splices refId unescaped into the check regex; for the XAML
    -- identifier character set this equals literal containment
    if !(containsCI content ("x:Name=\"" ++ refId ++ "\"")) then
      some ("x:Reference to non-existent ID: " ++ refId)
    else none)) ++
  ((flowDecisionMatches content).filterMap (fun m =>
    let nearby := windowAt content m.1 (min 2000 (content.data.length - m.1))
    if !(containsCI nearby "<FlowDecision.True>") && !(containsCI nearby "True=") then
      some "FlowDecision may be missing True branch"
    else none))

def testFlowchartStructure (content : String) (r : ValidationResult) : ValidationResult :=
  if !(containsCI content "<Flowchart") then setHR r "FlowchartStructure" "N/A"
  else
    let structureIssues := flowchartStructureIssues content
    if structureIssues.length > 0 then
      let disp :=
        if structureIssues.length > 3 then joinSep "; " (structureIssues.take 3) ++ "..."
        else joinSep "; " structureIssues
      setHR
        (addIssue r
          { rule := "FlowchartStructure", severity := "WARNING"
            message := "Flowchart structure issues: " ++ disp })
        "FlowchartStructure" "WARN"
    else setHR r "FlowchartStructure" "PASS"

/-! ## Test-ActivitySpecific -/

/-- All matches of `PRE[^>]*DisplayName="([^"]*)"` with their start index and
captured display name. -/
def dnScan (pre : List Seg) (content : String) : List (Nat × String) :=
  (scanCap false (pre ++ [.many (· ≠ '>'), .lit ("DisplayName=\"".data)])
      (· ≠ '"') false [.lit ['"']] content.data).map
    (fun m => (m.1, String.mk m.2))

def assignIssues (content : String) : List String :=
  (dnScan [.lit ("<Assign".data)] content).flatMap (fun m =>
    let nearby := windowAt content m.1 500
    (if !(containsCI nearby "<Assign.To>") && !(containsCI nearby "To=") then
      ["Assign \x27" ++ m.2 ++ "\x27 missing To property"]
    else []) ++
    (if !(containsCI nearby "<Assign.Value>") && !(containsCI nearby "Value=") then
      ["Assign \x27" ++ m.2 ++ "\x27 missing Value property"]
    else []))

def ifIssues (content : String) : List String :=
  (dnScan [.lit ("<If".data)] content).flatMap (fun m =>
    let nearby := windowAt content m.1 1000
    (if !(containsCI nearby "Condition=") then
      ["If \x27" ++ m.2 ++ "\x27 missing Condition"]
    else []) ++
    (if !(containsCI nearby "<If.Then>") then
      ["If \x27" ++ m.2 ++ "\x27 missing Then branch"]
    else []))

def switchIssues (content : String) : List String :=
  (dnScan [.lit ("<Switch".data)] content).filterMap (fun m =>
    let nearby := windowAt content m.1 500
    if !(containsCI nearby "Expression=") && !(containsCI nearby "<Switch.Expression>") then
      some ("Switch \x27" ++ m.2 ++ "\x27 missing Expression")
    else none)

def tryCatchIssues (content : String) : List String :=
  (dnScan [.lit ("<TryCatch".data)] content).filterMap (fun m =>
    let nearby := windowAt content m.1 1500
    if !(containsCI nearby "<TryCatch.Try>") then
      some ("TryCatch \x27" ++ m.2 ++ "\x27 missing Try block")
    else none)

def throwIssues (content : String) : List String :=
  (dnScan [.lit ("<Throw".data)] content).filterMap (fun m =>
    let nearby := windowAt content m.1 500
    if !(containsCI nearby "Exception=") then
      some ("Throw \x27" ++ m.2 ++ "\x27 missing Exception")
    else none)

def forEachIssues (content : String) : List String :=
  (dnScan [.lit ['<'], .anyLit ["ui:ForEach".data, "ForEach".data]] content).flatMap
    (fun m =>
      let nearby := windowAt content m.1 800
      (if !(containsCI nearby "x:TypeArguments=") then
        ["ForEach \x27" ++ m.2 ++ "\x27 missing TypeArguments"]
      else []) ++
      (if !(containsCI nearby "<ui:ForEach.Body>") && !(containsCI nearby "<ForEach.Body>") &&
          !(containsCI nearby "<ActivityAction") then
        ["ForEach \x27" ++ m.2 ++ "\x27 missing Body"]
      else []))

def forEachRowIssues (content : String) : List String :=
  (dnScan [.lit ("<ui:ForEachRow".data)] content).filterMap (fun m =>
    let nearby := windowAt content m.1 500
    if !(containsCI nearby "DataTable=") then
      some ("ForEachRow \x27" ++ m.2 ++ "\x27 missing DataTable")
    else none)

def invokeWfIssues (content : String) : List String :=
  (dnScan [.lit ("<ui:InvokeWorkflowFile".data)] content).filterMap (fun m =>
    let nearby := windowAt content m.1 500
    if !(containsCI nearby "WorkflowFileName=") then
      some ("InvokeWorkflowFile \x27" ++ m.2 ++ "\x27 missing WorkflowFileName")
    else none)

def invokeCodeDNIssues (content : String) : List String :=
  (dnScan [.lit ("<ui:InvokeCode".data)] content).filterMap (fun m =>
    let nearby := windowAt content m.1 500
    if !(containsCI nearby "Code=") then
      some ("InvokeCode \x27" ++ m.2 ++ "\x27 missing Code property")
    else none)

/-- LogMessage display-name matches: `<ui:LogMessage[^>]*DisplayName="([^"]*)"`. -/
def logScan (content : String) : List (Nat × String) :=
  dnScan [.lit ("<ui:LogMessage".data)] content

def logMessageWindow : Nat := 400

def logIssues (content : String) : List String :=
  (logScan content).flatMap (fun m =>
    let nearby := windowAt content m.1 logMessageWindow
    (if !(containsCI nearby "Level=") then
      ["LogMessage \x27" ++ m.2 ++ "\x27 missing Level"]
    else []) ++
    (if !(containsCI nearby "Message=") then
      ["LogMessage \x27" ++ m.2 ++ "\x27 missing Message"]
    else []))

/-- HR-601: `<ui:LogMessage\.Message>\s*<InArgument` (case-insensitive). -/
def logElemSyntax (content : String) : Bool :=
  searchB true false
    [.lit ("<ui:LogMessage.Message>".data), .many isWS, .lit ("<InArgument".data)]
    content.data

def logElemIssues (content : String) : List String :=
  if logElemSyntax content then
    ["LogMessage uses element syntax for Message property (causes InArgument type mismatch). Use attribute syntax: Message=\"[expression]\""]
  else []

def msgBoxIssues (content : String) : List String :=
  (dnScan [.lit ("<ui:MessageBox".data)] content).filterMap (fun m =>
    let nearby := windowAt content m.1 500
    if !(containsCI nearby "Text=") then
      some ("MessageBox \x27" ++ m.2 ++ "\x27 missing Text")
    else none)

def inputDialogIssues (content : String) : List String :=
  (dnScan [.lit ("<ui:InputDialog".data)] content).filterMap (fun m =>
    let nearby := windowAt content m.1 600
    if !(containsCI nearby "Label=") then
      some ("InputDialog \x27" ++ m.2 ++ "\x27 missing Label")
    else none)

def createDirIssues (content : String) : List String :=
  (dnScan [.lit ("<ui:CreateDirectory".data)] content).filterMap (fun m =>
    let nearby := windowAt content m.1 300
    if !(containsCI nearby "Path=") then
      some ("CreateDirectory \x27" ++ m.2 ++ "\x27 missing Path")
    else none)

def moveFileIssues (content : String) : List String :=
  (dnScan [.lit ("<ui:MoveFile".data)] content).flatMap (fun m =>
    let nearby := windowAt content m.1 400
    (if !(containsCI nearby "Path=") then
      ["MoveFile \x27" ++ m.2 ++ "\x27 missing Path"]
    else []) ++
    (if !(containsCI nearby "Destination=") then
      ["MoveFile \x27" ++ m.2 ++ "\x27 missing Destination"]
    else []))

def deleteFileIssues (content : String) : List String :=
  (dnScan [.lit ("<ui:DeleteFileX".data)] content).filterMap (fun m =>
    let nearby := windowAt content m.1 300
    if !(containsCI nearby "Path=") then
      some ("DeleteFileX \x27" ++ m.2 ++ "\x27 missing Path")
    else none)

def fileExistsIssues (content : String) : List String :=
  (dnScan [.lit ("<ui:FileExistsX".data)] content).filterMap (fun m =>
    let nearby := windowAt content m.1 300
    if !(containsCI nearby "Path=") then
      some ("FileExistsX \x27" ++ m.2 ++ "\x27 missing Path")
    else none)

def killProcessIssues (content : String) : List String :=
  (dnScan [.lit ("<ui:KillProcess".data)] content).filterMap (fun m =>
    let nearby := windowAt content m.1 300
    if !(containsCI nearby "ProcessName=") then
      some ("KillProcess \x27" ++ m.2 ++ "\x27 missing ProcessName")
    else none)

def readRangeIssues (content : String) : List String :=
  (dnScan [.lit ("<ui:ReadRange".data)] content).flatMap (fun m =>
    let nearby := windowAt content m.1 400
    (if !(containsCI nearby "WorkbookPath=") then
      ["ReadRange \x27" ++ m.2 ++ "\x27 missing WorkbookPath"]
    else []) ++
    (if !(containsCI nearby "DataTable=") then
      ["ReadRange \x27" ++ m.2 ++ "\x27 missing DataTable output"]
    else []))

def writeRangeIssues (content : String) : List String :=
  (dnScan [.lit ("<ui:WriteRange".data)] content).flatMap (fun m =>
    let nearby := windowAt content m.1 400
    (if !(containsCI nearby "WorkbookPath=") then
      ["WriteRange \x27" ++ m.2 ++ "\x27 missing WorkbookPath"]
    else []) ++
    (if !(containsCI nearby "DataTable=") then
      ["WriteRange \x27" ++ m.2 ++ "\x27 missing DataTable input"]
    else []))

def excelAppIssues (content : String) : List String :=
  (dnScan [.lit ("<ueab:ExcelApplicationCard".data)] content).filterMap (fun m =>
    let nearby := windowAt content m.1 500
    if !(containsCI nearby "WorkbookPath=") then
      some ("ExcelApplicationCard \x27" ++ m.2 ++ "\x27 missing WorkbookPath")
    else none)

def excelScopeIssues (content : String) : List String :=
  (dnScan [.lit ("<ueab:ExcelProcessScopeX".data)] content).filterMap (fun m =>
    let nearby := windowAt content m.1 800
    if !(containsCI nearby "<ueab:ExcelProcessScopeX.Body>") then
      some ("ExcelProcessScopeX \x27" ++ m.2 ++ "\x27 missing Body")
    else none)

def readRangeXIssues (content : String) : List String :=
  (dnScan [.lit ("<ueab:ReadRangeX".data)] content).filterMap (fun m =>
    let nearby := windowAt content m.1 300
    if !(containsCI nearby "SaveTo=") then
      some ("ReadRangeX \x27" ++ m.2 ++ "\x27 missing SaveTo")
    else none)

def addColIssues (content : String) : List String :=
  (dnScan [.lit ("<ui:AddDataColumn".data)] content).flatMap (fun m =>
    let nearby := windowAt content m.1 400
    (if !(containsCI nearby "ColumnName=") then
      ["AddDataColumn \x27" ++ m.2 ++ "\x27 missing ColumnName"]
    else []) ++
    (if !(containsCI nearby "DataTable=") then
      ["AddDataColumn \x27" ++ m.2 ++ "\x27 missing DataTable"]
    else []))

def flowDecIssues (content : String) : List String :=
  (dnScan [.lit ("<FlowDecision".data)] content).filterMap (fun m =>
    let nearby := windowAt content m.1 500
    if !(containsCI nearby "Condition=") then
      some ("FlowDecision \x27" ++ m.2 ++ "\x27 missing Condition")
    else none)

/-- The full per-activity issue list, in the order the script accumulates it. -/
def activityIssues (content : String) : List String :=
  assignIssues content ++ ifIssues content ++ switchIssues content ++
  tryCatchIssues content ++ throwIssues content ++ forEachIssues content ++
  forEachRowIssues content ++ invokeWfIssues content ++ invokeCodeDNIssues content ++
  logIssues content ++ logElemIssues content ++ msgBoxIssues content ++
  inputDialogIssues content ++ createDirIssues content ++ moveFileIssues content ++
  deleteFileIssues content ++ fileExistsIssues content ++ killProcessIssues content ++
  readRangeIssues content ++ writeRangeIssues content ++ excelAppIssues content ++
  excelScopeIssues content ++ readRangeXIssues content ++ addColIssues content ++
  flowDecIssues content

def testActivitySpecific (content : String) (r : ValidationResult) : ValidationResult :=
  let issues := activityIssues content
  if issues.length > 0 then
    let disp :=
      if issues.length > 5 then joinSep "; " (issues.take 5) ++ "..."
      else joinSep "; " issues
    setHR
      (addIssue r
        { rule := "ActivitySpecific", severity := "WARNING"
          message := "Activity structure issues: " ++ disp })
      "ActivitySpecific" "WARN"
  else setHR r "ActivitySpecific" "PASS"

/-! ## Test-CommonNamespaceRequirements -/

structure NsReq where
  segs : List Seg
  pfx : String
  expectedUri : String
  description : String

def nsRequirements : List NsReq :=
  [ { segs := [.lit ("sd:".data), .anyLit ["DataTable".data, "DataRow".data]]
      pfx := "sd"
      expectedUri := "clr-namespace:System.Data;assembly=System.Data.Common"
      description := "System.Data types (sd:DataTable, sd:DataRow)" },
    { segs := [.lit ("s:".data),
               .anyLit ["String[]".data, "Int32".data, "Boolean".data, "Double".data,
                        "DateTime".data, "TimeSpan".data, "Decimal".data]]
      pfx := "s"
      expectedUri := "clr-namespace:System;assembly=System.Private.CoreLib"
      description := "System primitive types (s:String[], s:Int32, etc.)" },
    { segs := [.lit ("<ue:".data)]
      pfx := "ue"
      expectedUri := "clr-namespace:UiPath.Excel;assembly=UiPath.Excel.Activities"
      description := "UiPath.Excel types" },
    { segs := [.lit ("<ueab:".data)]
      pfx := "ueab"
      expectedUri := "clr-namespace:UiPath.Excel.Activities.Business;assembly=UiPath.Excel.Activities"
      description := "UiPath.Excel.Activities.Business types" },
    { segs := [.lit ("scg:".data),
               .anyLit ["List".data, "Dictionary".data, "IEnumerable".data,
                        "KeyValuePair".data]]
      pfx := "scg"
      expectedUri := "clr-namespace:System.Collections.Generic;assembly=System.Private.CoreLib"
      description := "System.Collections.Generic types (scg:List, scg:Dictionary)" },
    { segs := [.lit ("sco:".data),
               .anyLit ["Collection".data, "ObservableCollection".data,
                        "ReadOnlyCollection".data]]
      pfx := "sco"
      expectedUri := "clr-namespace:System.Collections.ObjectModel;assembly=System.Private.CoreLib"
      description := "System.Collections.ObjectModel types (sco:Collection)" } ]

def commonNsIssues (content : String) (ns : List (String × String)) : List String :=
  nsRequirements.filterMap (fun req =>
    if searchB true false req.segs content.data then
      if !(htHas ns req.pfx) then
        some ("Namespace prefix \x27" ++ req.pfx ++ "\x27 required for " ++
          req.description ++ " but not declared")
      else
        match htGet ns req.pfx with
        | some actual =>
            if !(eqCI actual req.expectedUri) then
              some ("Namespace \x27" ++ req.pfx ++ "\x27 URI mismatch for " ++
                req.description ++ ": expected \x27" ++ req.expectedUri ++
                "\x27, got \x27" ++ actual ++ "\x27")
            else none
        | none => none
    else none)

def testCommonNamespaceRequirements (content : String) (ns : List (String × String))
    (r : ValidationResult) : ValidationResult :=
  let nsIssues := commonNsIssues content ns
  if nsIssues.length > 0 then
    let disp :=
      if nsIssues.length > 3 then joinSep "; " (nsIssues.take 3) ++ "..."
      else joinSep "; " nsIssues
    setHR
      (addIssue r
        { rule := "Namespace-Common-Types", severity := "WARNING"
          message := "Common namespace issues: " ++ disp })
      "Namespace-Common-Types" "WARN"
  else setHR r "Namespace-Common-Types" "PASS"

/-! ## Test-NamingConventions and Test-LoggingPractices -/

/-- Test-NamingConventions; `fileNameNoExt` is
`GetFileNameWithoutExtension($FilePath)`, a parameter of the embedding. -/
def testNamingConventions (fileNameNoExt content : String) (r : ValidationResult) :
    ValidationResult :=
  let r1 :=
    match fileNameNoExt.data with
    | [] => r
    | c :: _ =>
        if c ≠ c.toUpper then
          addIssue r
            { rule := "Standards-Naming", severity := "INFO"
              message := "Workflow filename \x27" ++ fileNameNoExt ++
                "\x27 should be PascalCase" }
        else r
  let singleLetterVars := (varsOf content).filter (fun v => v.data.length = 1)
  if singleLetterVars.length > 0 then
    addIssue r1
      { rule := "Standards-Naming", severity := "WARNING"
        message := "Single-letter variable names found: " ++
          joinSep ", " singleLetterVars }
  else r1

def testLoggingPractices (content : String) (r : ValidationResult) : ValidationResult :=
  let hasLogging :=
    containsCI content "LogMessage" || containsCI content "Log Message" ||
      containsCI content "WriteLine"
  if !hasLogging then
    addIssue r
      { rule := "Standards-Logging", severity := "INFO"
        message := "No logging activities found. Consider adding Log Message for debugging." }
  else r

/-! ## Invoke-XamlValidation: the pipeline -/

def countSev (r : ValidationResult) (sev : String) : Nat :=
  (r.issues.filter (fun i => i.severity = sev)).length

/-- The main validation pipeline over the already-read document text. The
path-not-found / unreadable-file early exits of the script are file-system
effects outside the text pipeline; the `.file` target of the driver below
models a successfully read file. `parse` is the .NET `[xml]` parser, `reg`
the optional namespace registry, `ctx` the project context resolved by
Get-ProjectContext. -/
def invokeXamlValidation (parse : String → Option String)
    (reg : Option (List (String × String))) (ctx : ProjectContext)
    (filePath fileNameNoExt : String) (content : String) : ValidationResult :=
  let r0 : ValidationResult :=
    { filePath := filePath, isValid := false, issues := [], hr := [], context := ctx }
  let layer1 := testXmlWellFormed parse content r0
  if layer1.1 = false then { layer1.2 with isValid := false }
  else
    let ns := getNamespaces content
    let r := testHR0 content layer1.2
    let r := testHR2 content ns reg r
    let r := testNamespacePrefixUsage content ns r
    let r := testHR3 content r
    let r := testHR4 content r
    let r := testHR5 content r
    let r := testHR503 content r
    let r := testHR6 content r
    let r := testDoubleEncoding content r
    let r := testHR7 content r
    let r := testHR9 content r
    let r := testHR701 content r
    let r := testSecretsDetection content r
    let r := testTypeSystem content r
    let r := testExpressionLanguage content r ctx.language
    let r := testFlowchartStructure content r
    let r := testActivitySpecific content r
    let r := testCommonNamespaceRequirements content ns r
    let r := testNamingConventions fileNameNoExt content r
    let r := testLoggingPractices content r
    { r with isValid := countSev r "ERROR" = 0 }

/-! ## Reporter: the JSON hashtable (ToHashtable + ConvertTo-Json) -/

/-- Abstract JSON-able PowerShell values. -/
inductive PSValue where
  | null
  | bool (b : Bool)
  | str (s : String)
  | nat (n : Nat)
  | obj (fields : List (String × PSValue))
  | arr (items : List PSValue)

/-- Is the value a JSON array? -/
def PSValue.isArr : PSValue → Bool
  | .arr _ => true
  | _ => false

/-- Is the value a JSON null? -/
def PSValue.isNull : PSValue → Bool
  | .null => true
  | _ => false

def issueObj (i : ValidationIssue) : PSValue :=
  .obj [("rule", .str i.rule), ("severity", .str i.severity),
        ("message", .str i.message), ("line", .nat i.line),
        ("element", match i.element with | none => .null | some e => .str e)]

/-- Capturing `$this.Issues | ForEach-Object {...}` in a hashtable slot:
zero pipeline outputs become null, one output a bare scalar, two or more an
array. -/
def pipelineValue (l : List PSValue) : PSValue :=
  match l with
  | [] => .null
  | [x] => x
  | _ => .arr l

def depObj (d : String × String) : PSValue :=
  .obj [("id", .str d.1), ("version", .str d.2)]

def contextObj (c : ProjectContext) : PSValue :=
  .obj [("language", .str c.language), ("compatibility", .str c.compatibility),
        ("dependencies", pipelineValue (c.dependencies.map depObj)),
        ("projectPath", match c.projectPath with | none => .null | some p => .str p)]

/-- `ValidationResult.ToHashtable` as rendered by `ConvertTo-Json`. -/
def toHashtable (r : ValidationResult) : PSValue :=
  .obj [("file_path", .str r.filePath),
        ("is_valid", .bool r.isValid),
        ("error_count", .nat (countSev r "ERROR")),
        ("warning_count", .nat (countSev r "WARNING")),
        ("issues", pipelineValue (r.issues.map issueObj)),
        ("hr_compliance", .obj (r.hr.map (fun p => (p.1, PSValue.str p.2)))),
        ("project_context", contextObj r.context)]

def psLookup (v : PSValue) (k : String) : Option PSValue :=
  match v with
  | .obj fields => (fields.find? (fun p => p.1 = k)).map (·.2)
  | _ => none

/-! ## Batch driver and exit codes -/

/-- Disqualification for exit-code purposes: ERROR-or-WARNING present under
`-Strict`, ERROR present otherwise. -/
def disqualified (strict : Bool) (r : ValidationResult) : Bool :=
  if strict then
    (r.issues.filter (fun i => i.severity = "ERROR" || i.severity = "WARNING")).length > 0
  else
    (r.issues.filter (fun i => i.severity = "ERROR")).length > 0

/-- Single-file exit code. -/
def singleExit (strict : Bool) (r : ValidationResult) : Nat :=
  if disqualified strict r then 1 else 0

/-- The resolved invocation target. `missing` = Resolve-Path failed,
`neither` = the path is neither a file nor a directory; a file carries its
base name (without extension) and its text; a directory carries the
recursively enumerated `*.xaml` files. -/
inductive Target where
  | missing
  | file (fileNameNoExt content : String)
  | dir (files : List (String × String))
  | neither

def validateEntry (parse : String → Option String)
    (reg : Option (List (String × String))) (ctx : ProjectContext)
    (f : String × String) : ValidationResult :=
  invokeXamlValidation parse reg ctx f.1 f.1 f.2

def dirResults (parse : String → Option String)
    (reg : Option (List (String × String))) (ctx : ProjectContext)
    (files : List (String × String)) : List ValidationResult :=
  files.map (validateEntry parse reg ctx)

/-- The text-mode `OVERALL SUMMARY` line of directory mode. -/
def dirSummary (results : List ValidationResult) : String :=
  "OVERALL SUMMARY: " ++ toString (results.filter (·.isValid)).length ++ "/" ++
    toString results.length ++ " files valid"

/-- Directory exit code: 0 iff no result is disqualifying (the non-strict
branch tests `-not $_.IsValid`, the strict branch counts ERROR/WARNING
issues). -/
def dirExit (strict : Bool) (results : List ValidationResult) : Nat :=
  if strict then
    if results.any (fun r =>
        (r.issues.filter (fun i => i.severity = "ERROR" || i.severity = "WARNING")).length > 0)
    then 1 else 0
  else
    if results.any (fun r => !r.isValid) then 1 else 0

/-- The whole entry point's exit code. -/
def mainExit (strict : Bool) (parse : String → Option String)
    (reg : Option (List (String × String))) (ctx : ProjectContext)
    (t : Target) : Nat :=
  match t with
  | .missing => 1
  | .file name content =>
      singleExit strict (invokeXamlValidation parse reg ctx name name content)
  | .dir files =>
      if files.length = 0 then 0
      else dirExit strict (dirResults parse reg ctx files)
  | .neither => 1

/-- Single-file mode as a pair (result, exit code) — the report is rendered
from the result before the exit code is computed. -/
def singleFileRun (strict : Bool) (parse : String → Option String)
    (reg : Option (List (String × String))) (ctx : ProjectContext)
    (fileNameNoExt content : String) : ValidationResult × Nat :=
  let r := invokeXamlValidation parse reg ctx fileNameNoExt fileNameNoExt content
  (r, singleExit strict r)

/-- Files validated by a target (one for a file, the enumerated list for a
directory, none otherwise). -/
def targetFiles : Target → List (String × String)
  | .file n c => [(n, c)]
  | .dir fs => fs
  | _ => []

/-- Case-insensitive occurrence count of a value in a list. -/
def cntCI (l : List String) (v : String) : Nat :=
  (l.filter (fun w => eqCI w v)).length

/-! ## Concrete documents used as witnesses and counterexamples -/

/-- A document with no ERROR and exactly one WARNING (missing x:Class). -/
def docWarnOnly : String :=
  "<Activity xmlns=\"http://a\" xmlns:x=\"http://x\" xmlns:sap2010=\"http://s\"><Sequence DisplayName=\"Main\" /></Activity>"

/-- A document with an ERROR (required namespace prefix sap2010 missing). -/
def docErr : String :=
  "<Activity xmlns:x=\"http://x\"><Sequence /></Activity>"

/-- A document producing exactly one issue (the no-logging INFO). -/
def docOneIssue : String :=
  "<Activity x:Class=\"Main\" xmlns=\"http://a\" xmlns:x=\"http://x\" xmlns:sap2010=\"http://s\"><Sequence DisplayName=\"Main\" /></Activity>"

/-- A logging activity with a Message attribute but no Level attribute. -/
def docLog : String :=
  "<ui:LogMessage DisplayName=\"Log1\" Message=\"[x]\" />"

/-- Two activities with IdRef "abc" plus one unique IdRef. -/
def docDupIdRef : String :=
  "<Sequence sap2010:WorkflowViewState.IdRef=\"abc\"><If sap2010:WorkflowViewState.IdRef=\"abc\" /><Assign sap2010:WorkflowViewState.IdRef=\"other\" /></Sequence>"

/-- Variable FOO and argument foo: distinct strings, equal ignoring case. -/
def docShadowCase : String :=
  "<Activity><x:Property Name=\"foo\" /><Variable Name=\"FOO\" /></Activity>"

/-- Argument without directional prefix, variable not colliding. -/
def docArgNoPfx : String :=
  "<Activity><x:Property Name=\"foo\" /><Variable Name=\"bar\" /></Activity>"

/-- Null-marker password value. -/
def docPwNull : String := "<ui:GetCredential Password=\"\x7bx:Null\x7d\" />"

/-- Bracketed-expression password value. -/
def docPwExpr : String := "<a Password=\"[expr]\" />"

/-- IsPassword boolean attribute. -/
def docIsPwFalse : String := "<a IsPassword=\"False\" />"

/-- A hardcoded password the rule must flag. -/
def docPwSecret : String := "<a Password=\"Sup3rSecret!\" />"

/-- Contains the substring `Password="Sup3rSecret!"` only inside
`IsPassword="Sup3rSecret!"`, where the lookbehind suppresses the match. -/
def docPwHidden : String := "<a IsPassword=\"Sup3rSecret!\" />"

/-- The character preceding a match position: the last character of the
prefix before the match, or the ambient previous character when the prefix
is empty (used to state where the lookbehind applies). -/
def lastOr : List Char → Option Char → Option Char
  | [], prev => prev
  | c :: pre, _ => lastOr pre (some c)

/-- Every compliance entry carries one of the four statuses the script ever
writes. -/
def AllowedHR (r : ValidationResult) : Prop :=
  ∀ p ∈ r.hr, p.2 = "PASS" ∨ p.2 = "FAIL" ∨ p.2 = "WARN" ∨ p.2 = "N/A"

/-! ## Helper lemmas -/

theorem eqCI_iff {a b : String} : eqCI a b = true ↔ lows a.data = lows b.data := by
  simp [eqCI]

theorem eqCI_refl (a : String) : eqCI a a = true := by
  simp [eqCI]

theorem eqCI_symm {a b : String} (h : eqCI a b = true) : eqCI b a = true := by
  rw [eqCI_iff] at h ⊢; exact h.symm

theorem eqCI_false_symm {a b : String} (h : eqCI a b = false) : eqCI b a = false := by
  cases hab : eqCI b a with
  | false => rfl
  | true => rw [eqCI_symm hab] at h; cases h

theorem htGet_htSet_self (l : List (String × String)) (k v : String) :
    htGet (htSet l k v) k = some v := by
  induction l with
  | nil => simp [htSet, htGet, List.find?, eqCI_refl]
  | cons p t ih =>
      cases h : eqCI p.1 k with
      | true => simp [htSet, h, htGet, List.find?]
      | false =>
          have hs : htSet (p :: t) k v = p :: htSet t k v := by simp [htSet, h]
          rw [hs]
          simpa [htGet, List.find?, h] using ih

theorem htSet_of_not_has {l : List (String × String)} {k : String} (v : String)
    (h : htHas l k = false) : htSet l k v = l ++ [(k, v)] := by
  induction l with
  | nil => simp [htSet]
  | cons p t ih =>
      have h1 : eqCI p.1 k = false := by
        cases hc : eqCI p.1 k with
        | false => rfl
        | true => simp [htHas, hc] at h
      have h2 : htHas t k = false := by
        have hcons : htHas (p :: t) k = (eqCI p.1 k || htHas t k) := by
          simp [htHas, List.any_cons]
        rw [hcons, h1, Bool.false_or] at h
        exact h
      simp [htSet, h1, ih h2]

theorem htHas_append_single (l : List (String × String)) (p u q : String) :
    htHas (l ++ [(p, u)]) q = (htHas l q || eqCI p q) := by
  simp [htHas, List.any_append]

theorem mem_htSet {l : List (String × String)} {k v : String} {x : String × String}
    (h : x ∈ htSet l k v) : x ∈ l ∨ x.2 = v := by
  induction l with
  | nil => simp [htSet] at h; simp [h]
  | cons p t ih =>
      by_cases hk : eqCI p.1 k = true
      · simp [htSet, hk] at h
        rcases h with h | h
        · right; rw [h]
        · left; simp [h]
      · simp only [Bool.not_eq_true] at hk
        simp [htSet, hk] at h
        rcases h with h | h
        · left; simp [h]
        · rcases ih h with h' | h'
          · left; simp [h']
          · right; exact h'

theorem countSev_set_isValid (r : ValidationResult) (b : Bool) (sev : String) :
    countSev { r with isValid := b } sev = countSev r sev := rfl

/-- The validity flag of every pipeline result equals "no ERROR issue". -/
theorem validate_isValid_eq (parse : String → Option String)
    (reg : Option (List (String × String))) (ctx : ProjectContext)
    (fp fn content : String) :
    (invokeXamlValidation parse reg ctx fp fn content).isValid =
      decide (countSev (invokeXamlValidation parse reg ctx fp fn content) "ERROR" = 0) := by
  unfold invokeXamlValidation
  cases h : parse content with
  | none => simp [testXmlWellFormed, h, countSev]
  | some e => simp [testXmlWellFormed, h, countSev, addIssue, setHR]

/-! ## C1: well-formedness failure short-circuits -/

/-- C1. If the structural XML parse fails, validation emits exactly one
issue, that issue has rule "Layer1-XML" and severity ERROR, the result is
invalid, and the compliance map holds exactly the key "Layer1-XML" (no later
rule ran). -/
theorem claim1_wellformed_shortcircuit (parse : String → Option String)
    (reg : Option (List (String × String))) (ctx : ProjectContext)
    (fp fn content e : String) (h : parse content = some e) :
    (invokeXamlValidation parse reg ctx fp fn content).issues =
      [{ rule := "Layer1-XML", severity := "ERROR"
         message := "XML parsing error: " ++ e }] ∧
    (invokeXamlValidation parse reg ctx fp fn content).hr = [("Layer1-XML", "FAIL")] ∧
    (invokeXamlValidation parse reg ctx fp fn content).isValid = false := by
  unfold invokeXamlValidation
  simp [testXmlWellFormed, h, addIssue, setHR, htSet]

/-- C1 witness: a concrete failing parse. -/
theorem claim1_witness :
    (invokeXamlValidation (fun _ => some "not xml") none {} "F" "F" "<oops").issues =
      [{ rule := "Layer1-XML", severity := "ERROR"
         message := "XML parsing error: " ++ "not xml" }] ∧
    (invokeXamlValidation (fun _ => some "not xml") none {} "F" "F" "<oops").hr =
      [("Layer1-XML", "FAIL")] ∧
    (invokeXamlValidation (fun _ => some "not xml") none {} "F" "F" "<oops").isValid =
      false :=
  claim1_wellformed_shortcircuit (fun _ => some "not xml") none {} "F" "F" "<oops"
    "not xml" rfl

/-! ## C2: isValid reflects ERROR severity only, independent of strict -/

/-- C2. For a document that parses, `isValid` is true iff there is no
ERROR-severity issue (WARNING and INFO never make it false), and the strict
flag never changes the result record (it only affects the exit code). -/
theorem claim2_isValid_iff_no_error (parse : String → Option String)
    (reg : Option (List (String × String))) (ctx : ProjectContext)
    (fp fn content : String) (_h : parse content = none) :
    ((invokeXamlValidation parse reg ctx fp fn content).isValid = true ↔
      countSev (invokeXamlValidation parse reg ctx fp fn content) "ERROR" = 0) ∧
    (∀ s₁ s₂ : Bool,
      (singleFileRun s₁ parse reg ctx fn content).1 =
        (singleFileRun s₂ parse reg ctx fn content).1) := by
  constructor
  · rw [validate_isValid_eq]; simp
  · intro s₁ s₂; rfl

/-- C2 witness. -/
theorem claim2_witness :
    ((invokeXamlValidation (fun _ => none) none {} "Main" "Main" "<a/>").isValid = true ↔
      countSev (invokeXamlValidation (fun _ => none) none {} "Main" "Main" "<a/>")
        "ERROR" = 0) ∧
    (∀ s₁ s₂ : Bool,
      (singleFileRun s₁ (fun _ => none) none {} "Main" "<a/>").1 =
        (singleFileRun s₂ (fun _ => none) none {} "Main" "<a/>").1) :=
  claim2_isValid_iff_no_error (fun _ => none) none {} "Main" "Main" "<a/>" rfl

/-! ## C6: monotonicity of the namespace-usage rule -/

/-- C6. Declaring one more prefix can only shrink the set of
used-but-undeclared prefixes reported by Test-NamespacePrefixUsage: the
missing set under the enlarged map is a subset of the old one, the newly
declared prefix is no longer missing, and no new finding can appear (an
empty missing set stays empty). -/
theorem claim6_missing_monotone (content : String) (ns : List (String × String))
    (p u : String) (hp : htHas ns p = false) :
    (∀ q, q ∈ missingPfx content (htSet ns p u) → q ∈ missingPfx content ns) ∧
    (∀ q, q ∈ missingPfx content (htSet ns p u) → eqCI q p = false) ∧
    (missingPfx content ns = [] → missingPfx content (htSet ns p u) = []) := by
  have hset : htSet ns p u = ns ++ [(p, u)] := htSet_of_not_has u hp
  have key : ∀ q, q ∈ missingPfx content (htSet ns p u) →
      q ∈ usedPfx content ∧ htHas ns q = false ∧ eqCI p q = false := by
    intro q hq
    rw [hset] at hq
    rw [missingPfx, List.mem_filter] at hq
    obtain ⟨hmem, hflt⟩ := hq
    rw [Bool.not_eq_true', htHas_append_single, Bool.or_eq_false_iff] at hflt
    exact ⟨hmem, hflt.1, hflt.2⟩
  refine ⟨?_, ?_, ?_⟩
  · intro q hq
    obtain ⟨hmem, hns, _⟩ := key q hq
    rw [missingPfx, List.mem_filter]
    exact ⟨hmem, by simp [hns]⟩
  · intro q hq
    exact eqCI_false_symm (key q hq).2.2
  · intro hnil
    rcases hm : missingPfx content (htSet ns p u) with _ | ⟨q, t⟩
    · rfl
    · exfalso
      have hq : q ∈ missingPfx content (htSet ns p u) := by rw [hm]; simp
      obtain ⟨hmem, hns, _⟩ := key q hq
      have : q ∈ missingPfx content ns := by
        rw [missingPfx, List.mem_filter]; exact ⟨hmem, by simp [hns]⟩
      rw [hnil] at this
      simp at this

/-- C6 witness. -/
theorem claim6_witness :
    (∀ q, q ∈ missingPfx "<p:Activity />" (htSet [("x", "u")] "p" "v") →
      q ∈ missingPfx "<p:Activity />" [("x", "u")]) ∧
    (∀ q, q ∈ missingPfx "<p:Activity />" (htSet [("x", "u")] "p" "v") →
      eqCI q "p" = false) ∧
    (missingPfx "<p:Activity />" [("x", "u")] = [] →
      missingPfx "<p:Activity />" (htSet [("x", "u")] "p" "v") = []) :=
  claim6_missing_monotone "<p:Activity />" [("x", "u")] "p" "v" (by decide)

/-! ## C10: HR-4 compliance is decided by the shadowing check alone -/

/-- C10 counterexample. In `docShadowCase` no variable name equals an
argument name (the strings "FOO" and "foo" differ), yet HR-4 is FAIL: the
script's `-contains` compares case-insensitively. -/
theorem claim10_counterexample :
    argsOf docShadowCase = ["foo"] ∧ varsOf docShadowCase = ["FOO"] ∧
    (∀ v ∈ varsOf docShadowCase, ∀ a ∈ argsOf docShadowCase, v ≠ a) ∧
    htGet (testHR4 docShadowCase {}).hr "HR-4" = some "FAIL" := by
  decide

/-- C10 (amended: name equality is case-insensitive, as PowerShell's
`-contains` compares strings). If no variable name case-insensitively equals
an argument name, Test-HR4-ArgumentsVariables sets compliance "HR-4" to PASS
— even when it emitted the prefix WARNING — and adds no ERROR-severity
issue, so prefix violations alone never fail the rule or the file. -/
theorem claim10_hr4_pass (content : String) (r : ValidationResult)
    (h : ∀ v ∈ varsOf content, ∀ a ∈ argsOf content, eqCI a v = false) :
    htGet (testHR4 content r).hr "HR-4" = some "PASS" ∧
    (testHR4 content r).issues.filter (fun i => i.severity = "ERROR") =
      r.issues.filter (fun i => i.severity = "ERROR") := by
  have hsh : (varsOf content).filter
      (fun v => (argsOf content).any (fun a => eqCI a v)) = [] := by
    rw [List.filter_eq_nil_iff]
    intro v hv hT
    rw [List.any_eq_true] at hT
    obtain ⟨a, ha, hEq⟩ := hT
    rw [h v hv a ha] at hEq
    cases hEq
  rw [testHR4, hsh]
  simp only [List.length_nil, gt_iff_lt, Nat.lt_irrefl, if_false]
  constructor
  · exact htGet_htSet_self _ _ _
  · by_cases hl : ((argsOf content).filter (fun a => !hasDirPrefix a)).length > 0
    · simp only [hl, if_true, setHR, addIssue]
      simp [List.filter_append]
    · simp [hl, setHR]

/-- C10 witness: an argument lacking the directional prefix (WARNING fires)
while no name collision exists still yields PASS and no ERROR. -/
theorem claim10_witness :
    htGet (testHR4 docArgNoPfx {}).hr "HR-4" = some "PASS" ∧
    (testHR4 docArgNoPfx {}).issues.filter (fun i => i.severity = "ERROR") =
      (({} : ValidationResult)).issues.filter (fun i => i.severity = "ERROR") :=
  claim10_hr4_pass docArgNoPfx {} (by decide)

/-! ## C7: IdRef duplicates are de-duplicated in the message -/

/-- Characterization of the duplicate-collection loop: if the occurrences
that are case-insensitively equal to `a` are exactly two literal copies of
`a` (with the `seen` table not yet containing `a`, or one copy with `a`
already seen) and every other value has a single occurrence not yet seen,
the loop reports exactly `[a]` (or `[]` when no copy remains). -/
theorem dupAux_char (a : String) :
    ∀ (l seen : List String),
    (∀ v ∈ l, eqCI v a = false →
      seen.any (fun s => eqCI s v) = false ∧ cntCI l v = 1) →
    ((l.filter (fun w => eqCI w a) = [a, a] ∧
        seen.any (fun s => eqCI s a) = false) ∨
     (l.filter (fun w => eqCI w a) = [a] ∧
        seen.any (fun s => eqCI s a) = true) ∨
     (l.filter (fun w => eqCI w a) = [])) →
    dupAux seen l = if l.filter (fun w => eqCI w a) = [] then [] else [a] := by
  intro l
  induction l with
  | nil =>
      intro seen _ hcase
      rcases hcase with ⟨hf, _⟩ | ⟨hf, _⟩ | hf <;> simp_all [dupAux]
  | cons x xs ih =>
      intro seen hP hcase
      by_cases hx : eqCI x a = true
      · have hfc : (x :: xs).filter (fun w => eqCI w a) =
            x :: xs.filter (fun w => eqCI w a) := by
          simp [List.filter_cons, hx]
        have hP' : ∀ v ∈ xs, eqCI v a = false →
            (x :: seen).any (fun s => eqCI s v) = false ∧ cntCI xs v = 1 := by
          intro v hv hva
          obtain ⟨hs, hc⟩ := hP v (List.mem_cons_of_mem x hv) hva
          have hxv : eqCI x v = false := by
            cases hxv : eqCI x v with
            | false => rfl
            | true =>
                have : eqCI v a = true := by
                  rw [eqCI_iff] at hx hxv ⊢
                  rw [← hxv]; exact hx
                rw [this] at hva; cases hva
          refine ⟨by simp [List.any_cons, hxv, hs], ?_⟩
          rw [cntCI] at hc ⊢
          rwa [List.filter_cons, if_neg (by simp [hxv])] at hc
        rcases hcase with ⟨hfilter, hflag⟩ | ⟨hfilter, hflag⟩ | hfilter
        · rw [hfc] at hfilter
          injection hfilter with hxa hxs
          subst hxa
          have hflag' : (x :: seen).any (fun s => eqCI s x) = true := by
            simp [List.any_cons, eqCI_refl]
          have hrec := ih (x :: seen) hP' (Or.inr (Or.inl ⟨hxs, hflag'⟩))
          simp only [dupAux, hflag]
          rw [hrec, hfc, hxs]
          simp
        · rw [hfc] at hfilter
          injection hfilter with hxa hxs
          subst hxa
          have hrec := ih (x :: seen) hP' (Or.inr (Or.inr hxs))
          simp only [dupAux, hflag]
          rw [hrec, hfc, hxs]
          simp
        · rw [hfc] at hfilter; cases hfilter
      · have hx' : eqCI x a = false := by
          cases hxx : eqCI x a with
          | false => rfl
          | true => rw [hxx] at hx; cases hx rfl
        have hfc : (x :: xs).filter (fun w => eqCI w a) =
            xs.filter (fun w => eqCI w a) := by
          simp [List.filter_cons, hx']
        obtain ⟨hs, hc⟩ := hP x (List.mem_cons_self x xs) hx'
        have hcx : ∀ w ∈ xs, eqCI w x = false := by
          intro w hw
          cases hwx : eqCI w x with
          | false => rfl
          | true =>
              exfalso
              rw [cntCI, List.filter_cons, if_pos (by simp [eqCI_refl])] at hc
              simp only [List.length_cons, Nat.add_eq_zero, Nat.succ.injEq] at hc
              have : xs.filter (fun w => eqCI w x) = [] :=
                List.length_eq_zero.mp (by omega)
              have hwin : w ∈ xs.filter (fun w => eqCI w x) :=
                List.mem_filter.mpr ⟨hw, by simp [hwx]⟩
              rw [this] at hwin
              simp at hwin
        have hP' : ∀ v ∈ xs, eqCI v a = false →
            (x :: seen).any (fun s => eqCI s v) = false ∧ cntCI xs v = 1 := by
          intro v hv hva
          obtain ⟨hs', hc'⟩ := hP v (List.mem_cons_of_mem x hv) hva
          have hxv : eqCI x v = false := eqCI_false_symm (hcx v hv)
          refine ⟨by simp [List.any_cons, hxv, hs'], ?_⟩
          rw [cntCI] at hc' ⊢
          rwa [List.filter_cons, if_neg (by simp [hxv])] at hc'
        have hflag' : ∀ b, seen.any (fun s => eqCI s a) = b →
            (x :: seen).any (fun s => eqCI s a) = b := by
          intro b hb
          simp [List.any_cons, hx', hb]
        have hcase' : (xs.filter (fun w => eqCI w a) = [a, a] ∧
              (x :: seen).any (fun s => eqCI s a) = false) ∨
            (xs.filter (fun w => eqCI w a) = [a] ∧
              (x :: seen).any (fun s => eqCI s a) = true) ∨
            (xs.filter (fun w => eqCI w a) = []) := by
          rcases hcase with ⟨hf, hg⟩ | ⟨hf, hg⟩ | hf
          · exact Or.inl ⟨hfc ▸ hf, hflag' false hg⟩
          · exact Or.inr (Or.inl ⟨hfc ▸ hf, hflag' true hg⟩)
          · exact Or.inr (Or.inr (hfc ▸ hf))
        have hrec := ih (x :: seen) hP' hcase'
        simp only [dupAux, hs]
        rw [hrec, hfc]
        simp

/-- C7. If exactly two extracted IdRef occurrences are "abc" (and every
other IdRef value occurs once), Test-HR5-IdRefUniqueness sets
compliance "HR-5" to FAIL and emits one ERROR issue whose message contains
"abc" exactly once — duplicates are de-duplicated in the message. -/
theorem claim7_idref_dedup (content : String) (r : ValidationResult)
    (h1 : (idrefsOf content).filter (fun w => eqCI w "abc") = ["abc", "abc"])
    (h2 : ∀ v ∈ idrefsOf content, eqCI v "abc" = false →
      cntCI (idrefsOf content) v = 1) :
    (testHR5 content r).issues = r.issues ++
      [{ rule := "HR-5", severity := "ERROR"
         message := "Duplicate IdRefs found: abc" }] ∧
    htGet (testHR5 content r).hr "HR-5" = some "FAIL" ∧
    countOcc "Duplicate IdRefs found: abc" "abc" = 1 := by
  have hdup : dupsOf (idrefsOf content) = ["abc"] := by
    have := dupAux_char "abc" (idrefsOf content) []
      (fun v hv hva => ⟨rfl, h2 v hv hva⟩) (Or.inl ⟨h1, rfl⟩)
    rw [dupsOf, this, if_neg (by rw [h1]; intro hcon; cases hcon)]
  have hnil : ¬(idrefsOf content).length = 0 := by
    intro h0
    rw [List.length_eq_zero.mp h0] at h1
    cases h1
  rw [testHR5]
  simp only [if_neg hnil, hdup]
  have hmsg : "Duplicate IdRefs found: " ++ joinSep ", " ["abc"] =
      "Duplicate IdRefs found: abc" := by decide
  refine ⟨?_, ?_, by decide⟩
  · simp [addIssue, setHR, dedupFirst, dedupFirstAux, hmsg]
  · simp only [setHR, addIssue, dedupFirst, dedupFirstAux]
    exact htGet_htSet_self _ _ _

/-- C7 witness. -/
theorem claim7_witness :
    (testHR5 docDupIdRef {}).issues = ({} : ValidationResult).issues ++
      [{ rule := "HR-5", severity := "ERROR"
         message := "Duplicate IdRefs found: abc" }] ∧
    htGet (testHR5 docDupIdRef {}).hr "HR-5" = some "FAIL" ∧
    countOcc "Duplicate IdRefs found: abc" "abc" = 1 :=
  claim7_idref_dedup docDupIdRef {} (by decide) (by decide)

/-! ## C4 and C5: exit codes -/

theorem length_filter_sev_or (l : List ValidationIssue) :
    (l.filter (fun i => i.severity = "ERROR" || i.severity = "WARNING")).length =
      (l.filter (fun i => i.severity = "ERROR")).length +
        (l.filter (fun i => i.severity = "WARNING")).length := by
  induction l with
  | nil => rfl
  | cons i t ih =>
      by_cases h1 : i.severity = "ERROR"
      · have h2 : ¬(i.severity = "WARNING") := by
          rw [h1]; intro hc; exact absurd hc (by decide)
        simp [List.filter_cons, h1, h2, ih]
        omega
      · by_cases h2 : i.severity = "WARNING"
        · simp [List.filter_cons, h1, h2, ih]
          omega
        · simp [List.filter_cons, h1, h2, ih]

theorem decide_pos_eq_not_zero (n : Nat) : decide (n > 0) = !decide (n = 0) := by
  cases n <;> simp

theorem validateEntry_isValid (parse : String → Option String)
    (reg : Option (List (String × String))) (ctx : ProjectContext)
    (f : String × String) :
    (validateEntry parse reg ctx f).isValid =
      decide (countSev (validateEntry parse reg ctx f) "ERROR" = 0) := by
  simp only [validateEntry]
  exact validate_isValid_eq parse reg ctx f.1 f.1 f.2

theorem disq_false_eq (parse : String → Option String)
    (reg : Option (List (String × String))) (ctx : ProjectContext)
    (f : String × String) :
    disqualified false (validateEntry parse reg ctx f) =
      !(validateEntry parse reg ctx f).isValid := by
  rw [validateEntry_isValid]
  exact decide_pos_eq_not_zero _

/-- A directory exit code is always 0 or 1. -/
theorem dirExit_zero_or_one (strict : Bool) (results : List ValidationResult) :
    dirExit strict results = 0 ∨ dirExit strict results = 1 := by
  rw [dirExit]
  split
  · split
    · right; rfl
    · left; rfl
  · split
    · right; rfl
    · left; rfl

/-- C4. A single file with zero ERROR and one WARNING issue exits 1 under
`-Strict` and 0 otherwise; in general the exit code is 0 or 1, and it is 1
exactly when the target was not found, was neither file nor directory, or
some validated file is disqualifying. -/
theorem claim4_exit_codes (parse : String → Option String)
    (reg : Option (List (String × String))) (ctx : ProjectContext) :
    (∀ fn content,
      countSev (invokeXamlValidation parse reg ctx fn fn content) "ERROR" = 0 →
      countSev (invokeXamlValidation parse reg ctx fn fn content) "WARNING" = 1 →
      mainExit true parse reg ctx (.file fn content) = 1 ∧
        mainExit false parse reg ctx (.file fn content) = 0) ∧
    (∀ (strict : Bool) (t : Target),
      (mainExit strict parse reg ctx t = 0 ∨ mainExit strict parse reg ctx t = 1) ∧
      (mainExit strict parse reg ctx t = 1 ↔
        t = .missing ∨ t = .neither ∨
          ∃ f ∈ targetFiles t,
            disqualified strict (validateEntry parse reg ctx f) = true)) := by
  constructor
  · intro fn content h0 h1
    simp only [countSev] at h0 h1
    constructor
    · simp [mainExit, singleExit, disqualified, length_filter_sev_or, h0, h1]
    · simp [mainExit, singleExit, disqualified, h0]
  · intro strict t
    cases t with
    | missing =>
        refine ⟨Or.inr rfl, ?_⟩
        simp [mainExit, targetFiles]
    | neither =>
        refine ⟨Or.inr rfl, ?_⟩
        simp [mainExit, targetFiles]
    | file n c =>
        simp only [mainExit, singleExit, targetFiles]
        by_cases hd : disqualified strict (invokeXamlValidation parse reg ctx n n c) = true
        · refine ⟨Or.inr (by simp [hd]), ?_⟩
          simp [hd, validateEntry]
        · rw [Bool.not_eq_true] at hd
          refine ⟨Or.inl (by simp [hd]), ?_⟩
          simp [hd, validateEntry]
    | dir files =>
        by_cases hne : files.length = 0
        · have hnil : files = [] := List.length_eq_zero.mp hne
          subst hnil
          refine ⟨Or.inl (by simp [mainExit]), ?_⟩
          simp [mainExit, targetFiles]
        · simp only [mainExit, if_neg hne, targetFiles]
          have hiff : dirExit strict (dirResults parse reg ctx files) = 1 ↔
              ∃ f ∈ files, disqualified strict (validateEntry parse reg ctx f) = true := by
            cases strict with
            | true =>
                constructor
                · intro h1
                  by_cases ha : ((dirResults parse reg ctx files).any (fun r =>
                      (r.issues.filter (fun i =>
                        i.severity = "ERROR" || i.severity = "WARNING")).length > 0)) = true
                  · obtain ⟨r, hr, hp⟩ := List.any_eq_true.mp ha
                    obtain ⟨f, hf, rfl⟩ := List.mem_map.mp hr
                    exact ⟨f, hf, by simpa [disqualified] using hp⟩
                  · rw [Bool.not_eq_true] at ha
                    rw [dirExit, if_pos rfl, ha] at h1
                    cases h1
                · rintro ⟨f, hf, hd⟩
                  have ha : ((dirResults parse reg ctx files).any (fun r =>
                      (r.issues.filter (fun i =>
                        i.severity = "ERROR" || i.severity = "WARNING")).length > 0)) = true :=
                    List.any_eq_true.mpr
                      ⟨validateEntry parse reg ctx f, List.mem_map_of_mem _ hf,
                        by simpa [disqualified] using hd⟩
                  rw [dirExit, if_pos rfl, ha]
                  rfl
            | false =>
                constructor
                · intro h1
                  by_cases ha : ((dirResults parse reg ctx files).any (fun r =>
                      !r.isValid)) = true
                  · obtain ⟨r, hr, hp⟩ := List.any_eq_true.mp ha
                    obtain ⟨f, hf, rfl⟩ := List.mem_map.mp hr
                    exact ⟨f, hf, by rw [disq_false_eq]; exact hp⟩
                  · rw [Bool.not_eq_true] at ha
                    rw [dirExit, if_neg (by simp), ha] at h1
                    cases h1
                · rintro ⟨f, hf, hd⟩
                  rw [disq_false_eq] at hd
                  have ha : ((dirResults parse reg ctx files).any (fun r =>
                      !r.isValid)) = true :=
                    List.any_eq_true.mpr
                      ⟨validateEntry parse reg ctx f, List.mem_map_of_mem _ hf, hd⟩
                  rw [dirExit, if_neg (by simp), ha]
                  rfl
          refine ⟨?_, by simpa using hiff⟩
          exact dirExit_zero_or_one strict (dirResults parse reg ctx files)

/-- C4 witness: `docWarnOnly` has 0 errors and 1 warning. -/
theorem claim4_witness :
    mainExit true (fun _ => none) none {} (.file "Main" docWarnOnly) = 1 ∧
      mainExit false (fun _ => none) none {} (.file "Main" docWarnOnly) = 0 :=
  (claim4_exit_codes (fun _ => none) none {}).1 "Main" docWarnOnly
    (by decide) (by decide)

/-- C5. For a directory of three documents where two have no ERROR issues
and one has at least one, text mode prints "OVERALL SUMMARY: 2/3 files
valid" and the exit code is 1; in general any one disqualified file makes
the whole batch exit 1. -/
theorem claim5_directory_summary (parse : String → Option String)
    (reg : Option (List (String × String))) (ctx : ProjectContext)
    (f₁ f₂ f₃ : String × String)
    (h₁ : countSev (validateEntry parse reg ctx f₁) "ERROR" = 0)
    (h₂ : countSev (validateEntry parse reg ctx f₂) "ERROR" = 0)
    (h₃ : 0 < countSev (validateEntry parse reg ctx f₃) "ERROR") :
    dirSummary (dirResults parse reg ctx [f₁, f₂, f₃]) =
      "OVERALL SUMMARY: 2/3 files valid" ∧
    containsCS (dirSummary (dirResults parse reg ctx [f₁, f₂, f₃]))
      "2/3 files valid" = true ∧
    mainExit false parse reg ctx (.dir [f₁, f₂, f₃]) = 1 ∧
    (∀ (strict : Bool) (files : List (String × String)),
      (∃ f ∈ files, disqualified strict (validateEntry parse reg ctx f) = true) →
      mainExit strict parse reg ctx (.dir files) = 1) := by
  have hv₁ : (validateEntry parse reg ctx f₁).isValid = true := by
    rw [validateEntry_isValid, h₁]; rfl
  have hv₂ : (validateEntry parse reg ctx f₂).isValid = true := by
    rw [validateEntry_isValid, h₂]; rfl
  have hv₃ : (validateEntry parse reg ctx f₃).isValid = false := by
    rw [validateEntry_isValid]
    simp only [decide_eq_false_iff_not]
    omega
  have hsum : dirSummary (dirResults parse reg ctx [f₁, f₂, f₃]) =
      "OVERALL SUMMARY: 2/3 files valid" := by
    rw [dirSummary]
    have hfl : (dirResults parse reg ctx [f₁, f₂, f₃]).filter (·.isValid) =
        [validateEntry parse reg ctx f₁, validateEntry parse reg ctx f₂] := by
      simp [dirResults, List.filter_cons, hv₁, hv₂, hv₃]
    rw [hfl]
    have hl3 : (dirResults parse reg ctx [f₁, f₂, f₃]).length = 3 := by
      simp [dirResults]
    have hl2 : [validateEntry parse reg ctx f₁,
        validateEntry parse reg ctx f₂].length = 2 := by simp
    rw [hl2, hl3]
    decide
  refine ⟨hsum, by rw [hsum]; decide, ?_, ?_⟩
  · have ha : ((dirResults parse reg ctx [f₁, f₂, f₃]).any (fun r =>
        !r.isValid)) = true := by
      simp [dirResults, hv₃]
    rw [mainExit, if_neg (by simp), dirExit, if_neg (by simp), ha]
    rfl
  · intro strict files ⟨f, hf, hd⟩
    have hne : ¬files.length = 0 := by
      intro h0
      rw [List.length_eq_zero.mp h0] at hf
      cases hf
    rw [mainExit, if_neg hne]
    cases strict with
    | true =>
        have ha : ((dirResults parse reg ctx files).any (fun r =>
            (r.issues.filter (fun i =>
              i.severity = "ERROR" || i.severity = "WARNING")).length > 0)) = true :=
          List.any_eq_true.mpr
            ⟨validateEntry parse reg ctx f, List.mem_map_of_mem _ hf,
              by simpa [disqualified] using hd⟩
        rw [dirExit, if_pos rfl, ha]
        rfl
    | false =>
        rw [disq_false_eq] at hd
        have ha : ((dirResults parse reg ctx files).any (fun r =>
            !r.isValid)) = true :=
          List.any_eq_true.mpr
            ⟨validateEntry parse reg ctx f, List.mem_map_of_mem _ hf, hd⟩
        rw [dirExit, if_neg (by simp), ha]
        rfl

/-- C5 witness: two clean documents and one with a missing required
namespace (ERROR). -/
theorem claim5_witness :
    dirSummary (dirResults (fun _ => none) none {}
      [("Main", docWarnOnly), ("Main", docWarnOnly), ("Bad", docErr)]) =
      "OVERALL SUMMARY: 2/3 files valid" ∧
    containsCS (dirSummary (dirResults (fun _ => none) none {}
      [("Main", docWarnOnly), ("Main", docWarnOnly), ("Bad", docErr)]))
      "2/3 files valid" = true ∧
    mainExit false (fun _ => none) none {}
      (.dir [("Main", docWarnOnly), ("Main", docWarnOnly), ("Bad", docErr)]) = 1 ∧
    (∀ (strict : Bool) (files : List (String × String)),
      (∃ f ∈ files,
        disqualified strict (validateEntry (fun _ => none) none {} f) = true) →
      mainExit strict (fun _ => none) none {} (.dir files) = 1) :=
  claim5_directory_summary (fun _ => none) none {}
    ("Main", docWarnOnly) ("Main", docWarnOnly) ("Bad", docErr)
    (by decide) (by decide) (by decide)

/-! ## C9: logging activity missing Level -/

theorem joinSep_singleton (sep x : String) : joinSep sep [x] = x := rfl

/-- C9. A document whose only LogMessage activity has a Message attribute in
its bounded trailing window but no Level attribute, and which triggers no
other per-activity structural check, gets exactly one WARNING issue from
Test-ActivitySpecific naming that activity as missing Level, and
compliance "ActivitySpecific" becomes WARN. -/
theorem claim9_logmessage_warning (content : String) (r : ValidationResult)
    (i : Nat) (name : String)
    (hscan : logScan content = [(i, name)])
    (hlevel : containsCI (windowAt content i logMessageWindow) "Level=" = false)
    (hmsg : containsCI (windowAt content i logMessageWindow) "Message=" = true)
    (hothers :
      assignIssues content = [] ∧ ifIssues content = [] ∧
      switchIssues content = [] ∧ tryCatchIssues content = [] ∧
      throwIssues content = [] ∧ forEachIssues content = [] ∧
      forEachRowIssues content = [] ∧ invokeWfIssues content = [] ∧
      invokeCodeDNIssues content = [] ∧ logElemIssues content = [] ∧
      msgBoxIssues content = [] ∧ inputDialogIssues content = [] ∧
      createDirIssues content = [] ∧ moveFileIssues content = [] ∧
      deleteFileIssues content = [] ∧ fileExistsIssues content = [] ∧
      killProcessIssues content = [] ∧ readRangeIssues content = [] ∧
      writeRangeIssues content = [] ∧ excelAppIssues content = [] ∧
      excelScopeIssues content = [] ∧ readRangeXIssues content = [] ∧
      addColIssues content = [] ∧ flowDecIssues content = []) :
    (testActivitySpecific content r).issues = r.issues ++
      [{ rule := "ActivitySpecific", severity := "WARNING"
         message := "Activity structure issues: " ++
           ("LogMessage \x27" ++ name ++ "\x27 missing Level") }] ∧
    htGet (testActivitySpecific content r).hr "ActivitySpecific" = some "WARN" := by
  obtain ⟨ha1, ha2, ha3, ha4, ha5, ha6, ha7, ha8, ha9, ha10, ha11, ha12, ha13,
    ha14, ha15, ha16, ha17, ha18, ha19, ha20, ha21, ha22, ha23, ha24⟩ := hothers
  have hlog : logIssues content =
      ["LogMessage \x27" ++ name ++ "\x27 missing Level"] := by
    rw [logIssues, hscan]
    simp [hlevel, hmsg]
  have hall : activityIssues content =
      ["LogMessage \x27" ++ name ++ "\x27 missing Level"] := by
    rw [activityIssues, ha1, ha2, ha3, ha4, ha5, ha6, ha7, ha8, ha9, hlog, ha10,
      ha11, ha12, ha13, ha14, ha15, ha16, ha17, ha18, ha19, ha20, ha21, ha22,
      ha23, ha24]
    simp
  rw [testActivitySpecific, hall]
  rw [if_pos (by norm_num), if_neg (by norm_num)]
  constructor
  · simp [addIssue, setHR, joinSep_singleton]
  · simp only [setHR, addIssue]
    exact htGet_htSet_self _ _ _

/-- C9 witness. -/
theorem claim9_witness :
    (testActivitySpecific docLog {}).issues = ({} : ValidationResult).issues ++
      [{ rule := "ActivitySpecific", severity := "WARNING"
         message := "Activity structure issues: " ++
           ("LogMessage \x27" ++ "Log1" ++ "\x27 missing Level") }] ∧
    htGet (testActivitySpecific docLog {}).hr "ActivitySpecific" = some "WARN" :=
  claim9_logmessage_warning docLog {} 0 "Log1" (by decide) (by decide) (by decide)
    (by decide)

/-! ## C8: the JSON report shape -/

theorem allowedHR_addIssue {r : ValidationResult} (h : AllowedHR r)
    (i : ValidationIssue) : AllowedHR (addIssue r i) := h

theorem allowedHR_set_isValid {r : ValidationResult} (h : AllowedHR r) (b : Bool) :
    AllowedHR { r with isValid := b } := h

theorem allowedHR_setHR {r : ValidationResult} (h : AllowedHR r) {k v : String}
    (hv : v = "PASS" ∨ v = "FAIL" ∨ v = "WARN" ∨ v = "N/A") :
    AllowedHR (setHR r k v) := by
  intro p hp
  rcases mem_htSet hp with hmem | heq
  · exact h p hmem
  · rw [heq]; exact hv

theorem allowedHR_empty (fp : String) (ctx : ProjectContext) :
    AllowedHR ⟨fp, false, [], [], ctx⟩ := by
  intro p hp
  simp at hp

theorem allowed_testHR0 (content : String) {r : ValidationResult}
    (h : AllowedHR r) : AllowedHR (testHR0 content r) := by
  simp only [testHR0]
  repeat' split
  all_goals
    first
      | exact h
      | exact allowedHR_setHR h (by simp)

theorem allowed_testHR2 (content : String) (ns : List (String × String))
    (reg : Option (List (String × String))) {r : ValidationResult}
    (h : AllowedHR r) : AllowedHR (testHR2 content ns reg r) := by
  simp only [testHR2]
  repeat' split
  all_goals
    first
      | exact h
      | exact allowedHR_setHR h (by simp)

theorem allowed_testNamespacePrefixUsage (content : String)
    (ns : List (String × String)) {r : ValidationResult} (h : AllowedHR r) :
    AllowedHR (testNamespacePrefixUsage content ns r) := by
  simp only [testNamespacePrefixUsage]
  repeat' split
  all_goals
    first
      | exact h
      | exact allowedHR_setHR h (by simp)

theorem allowed_testHR3 (content : String) {r : ValidationResult}
    (h : AllowedHR r) : AllowedHR (testHR3 content r) := by
  simp only [testHR3]
  repeat' split
  all_goals
    first
      | exact h
      | exact allowedHR_setHR h (by simp)

theorem allowed_testHR4 (content : String) {r : ValidationResult}
    (h : AllowedHR r) : AllowedHR (testHR4 content r) := by
  simp only [testHR4]
  repeat' split
  all_goals
    first
      | exact h
      | exact allowedHR_setHR h (by simp)

theorem allowed_testHR5 (content : String) {r : ValidationResult}
    (h : AllowedHR r) : AllowedHR (testHR5 content r) := by
  simp only [testHR5]
  repeat' split
  all_goals
    first
      | exact h
      | exact allowedHR_setHR h (by simp)

theorem allowed_testHR503 (content : String) {r : ValidationResult}
    (h : AllowedHR r) : AllowedHR (testHR503 content r) := by
  simp only [testHR503]
  repeat' split
  all_goals
    first
      | exact h
      | exact allowedHR_setHR h (by simp)

theorem allowed_testHR6 (content : String) {r : ValidationResult}
    (h : AllowedHR r) : AllowedHR (testHR6 content r) := by
  simp only [testHR6]
  repeat' split
  all_goals
    first
      | exact h
      | exact allowedHR_setHR h (by simp)

theorem allowed_testDoubleEncoding (content : String) {r : ValidationResult}
    (h : AllowedHR r) : AllowedHR (testDoubleEncoding content r) := by
  simp only [testDoubleEncoding]
  repeat' split
  all_goals
    first
      | exact h
      | exact allowedHR_setHR h (by simp)

theorem allowed_testHR7 (content : String) {r : ValidationResult}
    (h : AllowedHR r) : AllowedHR (testHR7 content r) := by
  simp only [testHR7]
  repeat' split
  all_goals
    first
      | exact h
      | exact allowedHR_setHR h (by simp)

theorem allowed_testHR9 (content : String) {r : ValidationResult}
    (h : AllowedHR r) : AllowedHR (testHR9 content r) := by
  simp only [testHR9]
  repeat' split
  all_goals
    first
      | exact h
      | exact allowedHR_setHR h (by simp)

theorem allowed_testHR701 (content : String) {r : ValidationResult}
    (h : AllowedHR r) : AllowedHR (testHR701 content r) := by
  simp only [testHR701]
  repeat' split
  all_goals
    first
      | exact h
      | exact allowedHR_setHR h (by simp)

theorem allowed_testSecretsDetection (content : String) {r : ValidationResult}
    (h : AllowedHR r) : AllowedHR (testSecretsDetection content r) := by
  simp only [testSecretsDetection]
  repeat' split
  all_goals
    first
      | exact h
      | exact allowedHR_setHR h (by simp)

theorem allowed_testTypeSystem (content : String) {r : ValidationResult}
    (h : AllowedHR r) : AllowedHR (testTypeSystem content r) := by
  simp only [testTypeSystem]
  repeat' split
  all_goals
    first
      | exact h
      | exact allowedHR_setHR h (by simp)

theorem allowed_testExpressionLanguage (content : String) {r : ValidationResult}
    (lang : String) (h : AllowedHR r) :
    AllowedHR (testExpressionLanguage content r lang) := by
  simp only [testExpressionLanguage]
  repeat' split
  all_goals
    first
      | exact h
      | exact allowedHR_setHR h (by simp)

theorem allowed_testFlowchartStructure (content : String) {r : ValidationResult}
    (h : AllowedHR r) : AllowedHR (testFlowchartStructure content r) := by
  simp only [testFlowchartStructure]
  repeat' split
  all_goals
    first
      | exact h
      | exact allowedHR_setHR h (by simp)

theorem allowed_testActivitySpecific (content : String) {r : ValidationResult}
    (h : AllowedHR r) : AllowedHR (testActivitySpecific content r) := by
  simp only [testActivitySpecific]
  repeat' split
  all_goals
    first
      | exact h
      | exact allowedHR_setHR h (by simp)

theorem allowed_testCommonNamespaceRequirements (content : String)
    (ns : List (String × String)) {r : ValidationResult} (h : AllowedHR r) :
    AllowedHR (testCommonNamespaceRequirements content ns r) := by
  simp only [testCommonNamespaceRequirements]
  repeat' split
  all_goals
    first
      | exact h
      | exact allowedHR_setHR h (by simp)

theorem allowed_testNamingConventions (fn content : String) {r : ValidationResult}
    (h : AllowedHR r) : AllowedHR (testNamingConventions fn content r) := by
  simp only [testNamingConventions]
  repeat' split
  all_goals exact h

theorem allowed_testLoggingPractices (content : String) {r : ValidationResult}
    (h : AllowedHR r) : AllowedHR (testLoggingPractices content r) := by
  simp only [testLoggingPractices]
  repeat' split
  all_goals exact h

/-- Every compliance value the pipeline ever stores is one of the four
statuses. -/
theorem allowed_validate (parse : String → Option String)
    (reg : Option (List (String × String))) (ctx : ProjectContext)
    (fp fn content : String) :
    AllowedHR (invokeXamlValidation parse reg ctx fp fn content) := by
  rw [invokeXamlValidation]
  cases hp : parse content with
  | some e =>
      simp only [testXmlWellFormed, hp]
      exact allowedHR_set_isValid
        (allowedHR_setHR (allowedHR_addIssue (allowedHR_empty fp ctx) _) (by simp)) _
  | none =>
      simp only [testXmlWellFormed, hp]
      exact allowedHR_set_isValid
        (allowed_testLoggingPractices _
          (allowed_testNamingConventions _ _
            (allowed_testCommonNamespaceRequirements _ _
              (allowed_testActivitySpecific _
                (allowed_testFlowchartStructure _
                  (allowed_testExpressionLanguage _ _
                    (allowed_testTypeSystem _
                      (allowed_testSecretsDetection _
                        (allowed_testHR701 _
                          (allowed_testHR9 _
                            (allowed_testHR7 _
                              (allowed_testDoubleEncoding _
                                (allowed_testHR6 _
                                  (allowed_testHR503 _
                                    (allowed_testHR5 _
                                      (allowed_testHR4 _
                                        (allowed_testHR3 _
                                          (allowed_testNamespacePrefixUsage _ _
                                            (allowed_testHR2 _ _ _
                                              (allowed_testHR0 _
                                                (allowedHR_setHR
                                                  (allowedHR_empty fp ctx)
                                                  (by simp)))))))))))))))))))))) _

/-- C8 counterexample. `docOneIssue` validates with exactly one issue, and
the rendered hashtable's "issues" field is that bare issue object, not a
one-element list: capturing the PowerShell pipeline unwraps single results,
so the claim's "a list for every issue count, including zero and one" fails. -/
theorem claim8_counterexample :
    (invokeXamlValidation (fun _ => none) none {} "Main" "Main" docOneIssue).issues.length = 1 ∧
    (psLookup
        (toHashtable (invokeXamlValidation (fun _ => none) none {} "Main" "Main" docOneIssue))
        "issues").map PSValue.isArr = some false := by
  constructor
  · decide
  · decide

/-- C8 (amended: with zero issues the "issues" field is null and with
exactly one it is the bare issue object; it is a list only for two or more
— the PowerShell pipeline-capture behaviour; all other fields as claimed).
The rendered report has fields file_path, is_valid, error_count (ERROR
count), warning_count (WARNING count), issues (each issue an object with
rule/severity/message/line/element), hr_compliance mapping every evaluated
rule id to PASS/FAIL/WARN/N-A, and project_context with language,
compatibility, dependencies and projectPath. -/
theorem claim8_json_shape (parse : String → Option String)
    (reg : Option (List (String × String))) (ctx : ProjectContext)
    (fp fn content : String) (r : ValidationResult)
    (hr : r = invokeXamlValidation parse reg ctx fp fn content) :
    psLookup (toHashtable r) "file_path" = some (.str r.filePath) ∧
    psLookup (toHashtable r) "is_valid" = some (.bool r.isValid) ∧
    psLookup (toHashtable r) "error_count" = some (.nat (countSev r "ERROR")) ∧
    psLookup (toHashtable r) "warning_count" = some (.nat (countSev r "WARNING")) ∧
    psLookup (toHashtable r) "issues" = some (pipelineValue (r.issues.map issueObj)) ∧
    (r.issues = [] → pipelineValue (r.issues.map issueObj) = .null) ∧
    (∀ i, r.issues = [i] → pipelineValue (r.issues.map issueObj) = issueObj i) ∧
    (2 ≤ r.issues.length → (pipelineValue (r.issues.map issueObj)).isArr = true) ∧
    (∀ i : ValidationIssue,
      psLookup (issueObj i) "rule" = some (.str i.rule) ∧
      psLookup (issueObj i) "severity" = some (.str i.severity) ∧
      psLookup (issueObj i) "message" = some (.str i.message) ∧
      psLookup (issueObj i) "line" = some (.nat i.line) ∧
      (psLookup (issueObj i) "element").isSome = true) ∧
    psLookup (toHashtable r) "hr_compliance" =
      some (.obj (r.hr.map (fun p => (p.1, PSValue.str p.2)))) ∧
    (∀ p ∈ r.hr, p.2 = "PASS" ∨ p.2 = "FAIL" ∨ p.2 = "WARN" ∨ p.2 = "N/A") ∧
    psLookup (toHashtable r) "project_context" = some (contextObj r.context) ∧
    psLookup (contextObj r.context) "language" = some (.str r.context.language) ∧
    psLookup (contextObj r.context) "compatibility" =
      some (.str r.context.compatibility) ∧
    (psLookup (contextObj r.context) "dependencies").isSome = true ∧
    (psLookup (contextObj r.context) "projectPath").isSome = true := by
  refine ⟨rfl, rfl, rfl, rfl, rfl, ?_, ?_, ?_, ?_, rfl, ?_, rfl, rfl, rfl, rfl, rfl⟩
  · intro hnil; rw [hnil]; rfl
  · intro i hone; rw [hone]; rfl
  · intro h2
    rcases hi : r.issues with _ | ⟨a, _ | ⟨b, t⟩⟩
    · rw [hi] at h2; simp at h2
    · rw [hi] at h2; simp at h2
    · rfl
  · intro i
    exact ⟨rfl, rfl, rfl, rfl, by cases i.element <;> rfl⟩
  · rw [hr]
    exact allowed_validate parse reg ctx fp fn content

/-- C8 witness for the amended shape theorem. -/
theorem claim8_witness :
    psLookup
        (toHashtable (invokeXamlValidation (fun _ => none) none {} "F" "F" "<a/>"))
        "is_valid" =
      some (.bool (invokeXamlValidation (fun _ => none) none {} "F" "F" "<a/>").isValid) ∧
    (∀ p ∈ (invokeXamlValidation (fun _ => none) none {} "F" "F" "<a/>").hr,
      p.2 = "PASS" ∨ p.2 = "FAIL" ∨ p.2 = "WARN" ∨ p.2 = "N/A") :=
  ⟨(claim8_json_shape (fun _ => none) none {} "F" "F" "<a/>" _ rfl).2.1,
    (claim8_json_shape (fun _ => none) none {} "F" "F" "<a/>" _
      rfl).2.2.2.2.2.2.2.2.2.2.1⟩

/-! ## C3: secrets detection -/

theorem isPrefixOf_append_self (l t : List Char) : l.isPrefixOf (l ++ t) = true := by
  induction l with
  | nil => cases t <;> rfl
  | cons c l' ih => simp [List.isPrefixOf, ih]

theorem isPrefixOf_append_of_le (l : List Char) :
    ∀ (cp t : List Char), l.length ≤ cp.length →
    l.isPrefixOf (cp ++ t) = l.isPrefixOf cp := by
  induction l with
  | nil =>
      intro cp t _
      cases cp with
      | nil => cases t <;> rfl
      | cons d cp' => rfl
  | cons c l' ih =>
      intro cp t h
      cases cp with
      | nil => simp at h
      | cons d cp' =>
          show ((c == d) && l'.isPrefixOf (cp' ++ t)) = ((c == d) && l'.isPrefixOf cp')
          rw [ih cp' t (by simpa using h)]

theorem litPre_self_append (ci : Bool) (l t : List Char) :
    litPre ci l (l ++ t) = true := by
  cases ci with
  | false => simp [litPre, isPrefixOf_append_self]
  | true =>
      simp only [litPre, if_pos, lows, List.map_append]
      exact isPrefixOf_append_self _ _

theorem litPre_ci_append_eq (l cp t : List Char) (h : l.length ≤ cp.length) :
    litPre true l (cp ++ t) = litPre true l cp := by
  simp only [litPre, if_pos, lows, List.map_append]
  exact isPrefixOf_append_of_le _ _ _ (by simpa [lows] using h)

theorem orElse_isSome {α : Type} (a : Option α) (f : Unit → Option α) :
    (a.orElse f).isSome = (a.isSome || (f ()).isSome) := by
  cases a <;> rfl

theorem manyC_zero {α : Type} (p : Char → Bool) (s : List Char)
    (k : List Char → Option α) (h : (k s).isSome = true) :
    (manyC p s k).isSome = true := by
  cases s with
  | nil => simpa [manyC] using h
  | cons c s' =>
      by_cases hp : p c = true
      · simp [manyC, hp, orElse_isSome, h]
      · simp only [Bool.not_eq_true] at hp
        simpa [manyC, hp] using h

theorem manyC_append {α : Type} (p : Char → Bool) (l rest : List Char)
    (k : List Char → Option α) (hall : l.all p = true)
    (h : (manyC p rest k).isSome = true) :
    (manyC p (l ++ rest) k).isSome = true := by
  induction l with
  | nil => simpa using h
  | cons c l' ih =>
      simp only [List.all_cons, Bool.and_eq_true] at hall
      simp [manyC, hall.1, orElse_isSome, ih hall.2]

theorem matchC_lit {α : Type} (ci : Bool) (l : List Char) (segs : List Seg)
    (s : List Char) (k : List Char → Option α) (h : litPre ci l s = true) :
    matchC ci (.lit l :: segs) s k = matchC ci segs (s.drop l.length) k := by
  simp [matchC, h]

theorem matchC_many_zero {α : Type} (ci : Bool) (p : Char → Bool)
    (segs : List Seg) (s : List Char) (k : List Char → Option α)
    (h : (matchC ci segs s k).isSome = true) :
    (matchC ci (.many p :: segs) s k).isSome = true := by
  simp only [matchC]
  exact manyC_zero _ _ _ h

theorem matchC_many1_append {α : Type} (ci : Bool) (p : Char → Bool)
    (segs : List Seg) (c : Char) (l rest : List Char) (k : List Char → Option α)
    (hc : p c = true) (hall : l.all p = true)
    (h : (matchC ci segs rest k).isSome = true) :
    (matchC ci (.many1 p :: segs) (c :: (l ++ rest)) k).isSome = true := by
  simp only [matchC, hc, if_pos]
  exact manyC_append p l rest _ hall (manyC_zero _ _ _ h)

theorem matchC_notAhead {α : Type} (ci : Bool) (ls : List (List Char))
    (segs : List Seg) (s : List Char) (k : List Char → Option α)
    (h : ls.any (fun l => litPre ci l s) = false) :
    matchC ci (.notAhead ls :: segs) s k = matchC ci segs s k := by
  simp [matchC, h]

/-- The Password pattern matches at the head of
`Password="Sup3rSecret!"` followed by anything. -/
theorem secretPw_matchesAt (post : List Char) :
    matchesAt true secretPw.segs ("Password=\"Sup3rSecret!\"".data ++ post) = true := by
  rw [show secretPw.segs =
    [.lit ("Password".data), .many isWS, .lit ['='], .many isWS, .lit ['"'],
     .notAhead ["\x7bx:Null\x7d".data, "[".data, "False".data, "True".data],
     .many1 notQuote, .lit ['"']] from rfl]
  rw [matchesAt, matchEnd]
  rw [show ("Password=\"Sup3rSecret!\"".data : List Char) =
    "Password".data ++ "=\"Sup3rSecret!\"".data from by decide]
  rw [List.append_assoc, matchC_lit _ _ _ _ _ (litPre_self_append _ _ _),
    List.drop_left]
  apply matchC_many_zero
  rw [show ("=\"Sup3rSecret!\"".data : List Char) =
    "=".data ++ "\"Sup3rSecret!\"".data from by decide]
  rw [List.append_assoc, matchC_lit _ _ _ _ _ (litPre_self_append _ _ _),
    List.drop_left]
  apply matchC_many_zero
  rw [show ("\"Sup3rSecret!\"".data : List Char) =
    "\"".data ++ "Sup3rSecret!\"".data from by decide]
  rw [List.append_assoc, matchC_lit _ _ _ _ _ (litPre_self_append _ _ _),
    List.drop_left]
  rw [matchC_notAhead _ _ _ _ _ (by
    have h1 : litPre true ("\x7bx:Null\x7d".data)
        ("Sup3rSecret!\"".data ++ post) = false := by
      rw [litPre_ci_append_eq _ _ _ (by decide)]; decide
    have h2 : litPre true ("[".data) ("Sup3rSecret!\"".data ++ post) = false := by
      rw [litPre_ci_append_eq _ _ _ (by decide)]; decide
    have h3 : litPre true ("False".data) ("Sup3rSecret!\"".data ++ post) = false := by
      rw [litPre_ci_append_eq _ _ _ (by decide)]; decide
    have h4 : litPre true ("True".data) ("Sup3rSecret!\"".data ++ post) = false := by
      rw [litPre_ci_append_eq _ _ _ (by decide)]; decide
    simp only [List.any_cons, List.any_nil, h1, h2, h3, h4]
    rfl)]
  rw [show ("Sup3rSecret!\"".data : List Char) =
    'S' :: ("up3rSecret!".data ++ "\"".data) from by decide]
  rw [List.cons_append, List.append_assoc]
  apply matchC_many1_append _ _ _ _ _ _ _ (by decide) (by decide)
  rw [matchC_lit _ _ _ _ _ (litPre_self_append _ _ _), List.drop_left]
  rfl

theorem lastOr_cons (c : Char) (pre : List Char) (prev : Option Char) :
    lastOr (c :: pre) prev = lastOr pre (some c) := rfl

/-- The last character of a nonempty prefix decides the lookbehind. -/
theorem lastOr_append_single (pre : List Char) :
    ∀ (c : Char) (prev : Option Char), lastOr (pre ++ [c]) prev = some c := by
  induction pre with
  | nil => intro c prev; rfl
  | cons d t ih => intro c prev; rw [List.cons_append, lastOr_cons, ih]

theorem searchAux_of_split (ci lb : Bool) (segs : List Seg) :
    ∀ (pre : List Char) (prev : Option Char) (suf : List Char),
    lbOk lb (lastOr pre prev) = true → matchesAt ci segs suf = true →
    searchAux ci lb segs prev (pre ++ suf) = true := by
  intro pre
  induction pre with
  | nil =>
      intro prev suf hlb hm
      have hlb' : lbOk lb prev = true := hlb
      rw [List.nil_append]
      cases suf with
      | nil => simp [searchAux, hlb', hm]
      | cons c s' => simp [searchAux, hlb']; left; exact hm
  | cons c pre' ih =>
      intro prev suf hlb hm
      rw [List.cons_append]
      rw [lastOr_cons] at hlb
      simp [searchAux, ih (some c) suf hlb hm]

/-- Firing of the Password pattern on any document containing
`Password="Sup3rSecret!"` at a position not preceded by an ASCII letter. -/
theorem secretPw_fires (content : String) (pre post : List Char)
    (hsplit : content.data = pre ++ ("Password=\"Sup3rSecret!\"".data ++ post))
    (hlb : lbOk true (lastOr pre none) = true) :
    searchB true secretPw.lb secretPw.segs content.data = true := by
  rw [show secretPw.lb = true from rfl, searchB, hsplit]
  exact searchAux_of_split true true secretPw.segs pre none
    ("Password=\"Sup3rSecret!\"".data ++ post) hlb (secretPw_matchesAt post)

theorem secretsFound_has_password (content : String)
    (h : searchB true secretPw.lb secretPw.segs content.data = true) :
    "Hardcoded Password property" ∈ secretsFound content := by
  rw [secretsFound]
  apply List.mem_map.mpr
  refine ⟨secretPw, List.mem_filter.mpr ⟨?_, h⟩, rfl⟩
  rw [secretsPatterns]
  exact List.mem_cons_of_mem _ (List.mem_cons_self _ _)

theorem testSecrets_fail_of_mem (content : String) (r : ValidationResult)
    (hmem : "Hardcoded Password property" ∈ secretsFound content) :
    htGet (testSecretsDetection content r).hr "Secrets" = some "FAIL" ∧
    ∃ m, (testSecretsDetection content r).issues = r.issues ++
      [{ rule := "Secrets", severity := "ERROR", message := m }] := by
  have hlen : (secretsFound content).length > 0 :=
    List.length_pos.mpr (List.ne_nil_of_mem hmem)
  rw [testSecretsDetection, if_pos hlen]
  constructor
  · simp only [setHR, addIssue]
    exact htGet_htSet_self _ _ _
  · refine ⟨"Potential hardcoded secrets detected: " ++
      joinSep ", " (dedupFirst (secretsFound content)) ++
      ". Use Orchestrator assets/credentials instead.", ?_⟩
    simp [addIssue, setHR]

/-- C3 counterexample. `docPwHidden` contains the substring
`Password="Sup3rSecret!"` (inside `IsPassword="Sup3rSecret!"`), yet the
secrets rule emits no issue: the `(?<![a-zA-Z])` lookbehind suppresses the
match, so the claim's "every document containing" is too strong. -/
theorem claim3_counterexample :
    containsCS docPwHidden "Password=\"Sup3rSecret!\"" = true ∧
    (testSecretsDetection docPwHidden {}).issues = [] ∧
    htGet (testSecretsDetection docPwHidden {}).hr "Secrets" = some "PASS" := by
  refine ⟨by decide, by decide, by decide⟩

/-- C3 (amended: the occurrence must not be immediately preceded by an
ASCII letter, matching the pattern's lookbehind). The secrets rule emits no
issue for documents whose only password-like text is `Password="{x:Null}"`,
`Password="[expr]"`, or `IsPassword="False"`; and every document containing
`Password="Sup3rSecret!"` at a position not preceded by an ASCII letter
gets an ERROR issue with rule "Secrets" and compliance "Secrets" = FAIL. -/
theorem claim3_secrets_detection :
    ((testSecretsDetection docPwNull {}).issues = [] ∧
      htGet (testSecretsDetection docPwNull {}).hr "Secrets" = some "PASS") ∧
    ((testSecretsDetection docPwExpr {}).issues = [] ∧
      htGet (testSecretsDetection docPwExpr {}).hr "Secrets" = some "PASS") ∧
    ((testSecretsDetection docIsPwFalse {}).issues = [] ∧
      htGet (testSecretsDetection docIsPwFalse {}).hr "Secrets" = some "PASS") ∧
    (∀ (content : String) (pre post : List Char) (r : ValidationResult),
      content.data = pre ++ ("Password=\"Sup3rSecret!\"".data ++ post) →
      (pre = [] ∨ ∃ pre₀ c, pre = pre₀ ++ [c] ∧ isAsciiLetter c = false) →
      htGet (testSecretsDetection content r).hr "Secrets" = some "FAIL" ∧
      ∃ m, (testSecretsDetection content r).issues = r.issues ++
        [{ rule := "Secrets", severity := "ERROR", message := m }]) := by
  refine ⟨⟨by decide, by decide⟩, ⟨by decide, by decide⟩, ⟨by decide, by decide⟩, ?_⟩
  intro content pre post r hsplit hpre
  have hlb : lbOk true (lastOr pre none) = true := by
    rcases hpre with hnil | ⟨pre₀, c, hc, hl⟩
    · rw [hnil]; rfl
    · rw [hc, lastOr_append_single]
      simp [lbOk, hl]
  exact testSecrets_fail_of_mem content r
    (secretsFound_has_password content (secretPw_fires content pre post hsplit hlb))

/-- C3 witness: `docPwSecret` = `<a Password="Sup3rSecret!" />`, where the
occurrence is preceded by a space. -/
theorem claim3_witness :
    htGet (testSecretsDetection docPwSecret {}).hr "Secrets" = some "FAIL" ∧
    ∃ m, (testSecretsDetection docPwSecret {}).issues =
      ({} : ValidationResult).issues ++
        [{ rule := "Secrets", severity := "ERROR", message := m }] :=
  claim3_secrets_detection.2.2.2 docPwSecret ("<a ".data) (" />".data) {}
    (by decide) (Or.inr ⟨"<a".data, ' ', by decide, by decide⟩)

end XamlLint
